import Mathlib

/-!
Shallow embedding of the deterministic simulation core of
`esport_heaven_online` (`src/src/{utils,level,player,boomerang,particle,
curtain,game}.rs`) and proofs about it.

Modelling conventions:
* Rust `i32` values are modelled as unbounded `Int`; gameplay quantities
  (positions, velocities, timers) stay far below the `i32` bounds, and every
  theorem is stated at the level of the translated operations themselves.
  Rust `/` on `i32` truncates towards zero, which is `Int.tdiv`.
* Rust `usize` counters are `Nat`.
* Input bitmasks (`u8`) are `Nat`, with `&` as `Nat.land`.
* The `fixed` crate's `I32F32` (resp. `I64F64`) values are modelled by their
  bit patterns: an `Int` equal to the real value scaled by `2^32`
  (resp. `2^64`), saturating operations clamping to the `i64` bit range.
  `fixed_sqrt` on a nonnegative value is the floor square root of the value.
-/

/-- Fuel-driven floor square root (structural recursion, so that it is
kernel-reducible, unlike `Nat.sqrt`). `isqrtFuel fuel n` is `n.sqrt` for
`fuel ≥ n`. -/
def isqrtFuel : Nat → Nat → Nat
  | 0, _ => 0
  | fuel + 1, n =>
    if n < 2 then n
    else
      let r := 2 * isqrtFuel fuel (n / 4)
      if (r + 1) * (r + 1) ≤ n then r + 1 else r

/-- Kernel-reducible floor square root. -/
def isqrt (n : Nat) : Nat := isqrtFuel n n

theorem isqrtFuel_char (fuel : Nat) : ∀ n : Nat, n ≤ fuel →
    isqrtFuel fuel n * isqrtFuel fuel n ≤ n ∧
      n < (isqrtFuel fuel n + 1) * (isqrtFuel fuel n + 1) := by
  induction fuel with
  | zero => intro n hn; interval_cases n <;> simp [isqrtFuel]
  | succ fuel ih =>
    intro n hn
    rw [isqrtFuel]
    by_cases h2 : n < 2
    · simp only [if_pos h2]
      interval_cases n <;> simp
    · simp only [if_neg h2]
      have hrec : n / 4 ≤ fuel := by omega
      obtain ⟨h1, h2'⟩ := ih (n / 4) hrec
      set r := 2 * isqrtFuel fuel (n / 4) with hr
      have hle : r * r ≤ n := by
        have : r * r = 4 * (isqrtFuel fuel (n / 4) * isqrtFuel fuel (n / 4)) := by ring
        have h4 : 4 * (n / 4) ≤ n := Nat.mul_div_le n 4
        omega
      have hlt : n < (r + 2) * (r + 2) := by
        have hd : n / 4 + 1 ≤ (isqrtFuel fuel (n / 4) + 1) * (isqrtFuel fuel (n / 4) + 1) := h2'
        have h4 : n < 4 * (n / 4) + 4 := by omega
        have hsq : (r + 2) * (r + 2) =
            4 * ((isqrtFuel fuel (n / 4) + 1) * (isqrtFuel fuel (n / 4) + 1)) := by
          rw [hr]; ring
        omega
      by_cases hc : (r + 1) * (r + 1) ≤ n
      · simp only [if_pos hc]; exact ⟨hc, hlt⟩
      · simp only [if_neg hc]; omega

theorem isqrt_eq_sqrt (n : Nat) : isqrt n = Nat.sqrt n := by
  obtain ⟨h1, h2⟩ := isqrtFuel_char n n le_rfl
  have ha : isqrt n ≤ Nat.sqrt n := Nat.le_sqrt.mpr h1
  have hb : Nat.sqrt n < isqrt n + 1 := Nat.sqrt_lt.mpr h2
  omega

/-! ## Fixed-point model (`fixed` crate `I32F32`, bit patterns scaled by `2^32`) -/

/-- Scale factor of an `I32F32` bit pattern. -/
def fixScale : Int := 2 ^ 32

/-- `I32F32` bit patterns live in the `i64` range. -/
def i64MinInt : Int := -(2 ^ 63)

def i64MaxInt : Int := 2 ^ 63 - 1

def i32MinInt : Int := -(2 ^ 31)

def i32MaxInt : Int := 2 ^ 31 - 1

/-- Clamp a bit pattern into the `I32F32` (i.e. `i64`) range: the result of a
`saturating_*` operation of the `fixed` crate. -/
def satFix (b : Int) : Int :=
  if b < i64MinInt then i64MinInt else if b > i64MaxInt then i64MaxInt else b

/-- `I32F32::from_num` on an integer. -/
def fix_from_int (n : Int) : Int := n * fixScale

/-- `I32F32::saturating_mul` on bit patterns (result rounded towards `-∞`,
then saturated). -/
def fix_saturating_mul (a b : Int) : Int := satFix ((a * b).fdiv fixScale)

/-- `I32F32::saturating_div` on bit patterns (divisor nonzero in every source
use; result rounded towards `-∞`, then saturated). -/
def fix_saturating_div (a b : Int) : Int := satFix ((a * fixScale).fdiv b)

/-- `I32F32::saturating_to_num::<i32>`: drop the fraction bits (rounding
towards `-∞`) and saturate to the `i32` range. -/
def fix_saturating_to_i32 (b : Int) : Int :=
  let v := b.fdiv fixScale
  if v < i32MinInt then i32MinInt else if v > i32MaxInt then i32MaxInt else v

/-! ## `utils.rs` -/

structure IntVector2D where
  x : Int
  y : Int
deriving DecidableEq, Repr

/-- `IntVector2D::length` (bit pattern of the returned `I32F32`):
`I64F64::from_num(x*x + y*y).sqrt()` converted to `I32F32`, which is
`⌊√(x²+y²)·2^32⌋`. -/
def IntVector2D.length_bits (v : IntVector2D) : Int :=
  Int.ofNat (isqrt ((v.x * v.x + v.y * v.y).toNat * 2 ^ 64))

/-- `IntVector2D::length_as_int`. -/
def IntVector2D.length_as_int (v : IntVector2D) : Int :=
  fix_saturating_to_i32 v.length_bits

/-- `IntVector2D::normalize`. -/
def IntVector2D.normalize (v : IntVector2D) (size : Int) : IntVector2D :=
  if v.x = 0 ∧ v.y = 0 then v
  else
    let normal := fix_saturating_div (fix_from_int size) v.length_bits
    { x := fix_saturating_to_i32 (fix_saturating_mul (fix_from_int v.x) normal),
      y := fix_saturating_to_i32 (fix_saturating_mul (fix_from_int v.y) normal) }

/-- `IntVector2D::zero`. -/
def IntVector2D.zero_out (_v : IntVector2D) : IntVector2D := { x := 0, y := 0 }

structure Hitbox where
  x : Int
  y : Int
  width : Int
  height : Int
deriving DecidableEq, Repr

/-- `utils::do_hitboxes_overlap`. -/
def do_hitboxes_overlap (a b : Hitbox) : Bool :=
  let is_not_overlapping :=
    decide (a.x > b.x + b.width) || decide (b.x > a.x + a.width) ||
    decide (a.y > b.y + b.height) || decide (b.y > a.y + a.height)
  !is_not_overlapping

/-- `utils::approach`. -/
def approach (value target amount : Int) : Int :=
  if value < target - amount then value + amount
  else if value > target + amount then value - amount
  else target

/-- `utils::clamp`. -/
def clamp (value min max : Int) : Int :=
  if max > min then
    if value < min then min else if value > max then max else value
  else
    if value < max then max else if value > min then min else value

/-- `utils::lerp` (`t` is an `I32F32` bit pattern). -/
def lerp (a b t : Int) : Int :=
  a + fix_saturating_to_i32 (fix_saturating_mul (fix_from_int (b - a)) t)

/-- `utils::input_check`. -/
def input_check (check input : Nat) : Bool := decide (Nat.land input check ≠ 0)

/-- `utils::input_pressed`. -/
def input_pressed (check input prev_input : Nat) : Bool :=
  input_check check input && !input_check check prev_input

/-- `utils::input_released`. -/
def input_released (check input prev_input : Nat) : Bool :=
  !input_check check input && input_check check prev_input

/-! ## `game.rs` input bit constants -/

def INPUT_UP : Nat := 1
def INPUT_DOWN : Nat := 2
def INPUT_LEFT : Nat := 4
def INPUT_RIGHT : Nat := 8
def INPUT_JUMP : Nat := 16
def INPUT_ATTACK : Nat := 32
def INPUT_DODGE : Nat := 64

/-! ## `level.rs` -/

def TILE_SIZE : Int := 4000

/-- The static level data (loaded from the level file before the simulation
starts; immutable during simulation). -/
structure Level where
  width_in_tiles : Int
  height_in_tiles : Int
  grid : List Bool
deriving DecidableEq, Repr

/-- `Level::check_grid`. The source indexes the grid `Vec` directly (the
level loader guarantees `grid.length = width·height`); out-of-range
(well-formed) indices are modelled by the default `false`. -/
def Level.check_grid (level : Level) (tile_x tile_y : Int) : Bool :=
  if tile_x < 0 || tile_x ≥ level.width_in_tiles || tile_y < 0 ||
      tile_y ≥ level.height_in_tiles then
    false
  else
    level.grid.getD (tile_x + tile_y * level.width_in_tiles).toNat false

/-! ## `player.rs` -/

def OG_FPS : Int := 60
def RUN_ACCEL : Int := 400 * 1000
def RUN_ACCEL_TURN_MULTIPLIER : Int := 2
def RUN_DECEL : Int := RUN_ACCEL * RUN_ACCEL_TURN_MULTIPLIER
def AIR_ACCEL : Int := 360 * 1000
def AIR_DECEL : Int := 360 * 1000
def MAX_RUN_SPEED : Int := 100 * 1000
def MAX_SUPERJUMP_SPEED_X : Int := 250 * 1000
def MAX_SUPERJUMP_SPEED_X_OFF_WALL_SLIDE : Int := 150 * 1000
def MAX_AIR_SPEED : Int := 120 * 1000
def GRAVITY : Int := 500 * 1000
def FASTFALL_GRAVITY : Int := 1200 * 1000
def GRAVITY_ON_WALL : Int := 150 * 1000
def JUMP_POWER : Int := 160 * 1000
def JUMP_CANCEL_POWER : Int := 40 * 1000
def WALL_JUMP_POWER_X : Int := 130 * 1000
def WALL_JUMP_POWER_Y : Int := 120 * 1000
def SUPER_WALL_JUMP_POWER_X : Int := 74286
def SUPER_WALL_JUMP_POWER_Y : Int := 210000
def WALL_STICKINESS : Int := 60 * 1000
def MAX_FALL_SPEED : Int := 270 * 1000
def MAX_FALL_SPEED_ON_WALL : Int := 200 * 1000
def MAX_FASTFALL_SPEED : Int := 500 * 1000
def DOUBLE_JUMP_POWER_Y : Int := 130 * 1000
def DODGE_DURATION : Int := 9
def SLIDE_DURATION : Int := 19
def SLIDE_DECEL : Int := 100 * 1000
def DODGE_COOLDOWN : Int := 9
def DODGE_SPEED : Int := 260 * 1000

/-- The player state.  The trailing five fields (`is_dead`, `will_die`,
`start`, `sound_commands`, `particle_spawns`) are used by `game.rs` and
`main.rs` but their declarations are not part of the `player.rs` in `src/`.
Modelled from the spec: §3 Player "alive/will-die flags", spawn point,
"outgoing sound-command queue", and the per-frame particle-spawn queue
drained by `State::advance`. -/
structure Player where
  hitbox : Hitbox
  velocity : IntVector2D
  current_animation : String
  current_animation_frame : Nat
  is_facing_left : Bool
  was_on_ground : Bool
  was_on_wall : Bool
  can_double_jump : Bool
  can_dodge : Bool
  dodge_timer : Int
  dodge_timer_duration : Int
  dodge_cooldown : Int
  is_sliding : Bool
  is_wall_sliding : Bool
  is_super_jumping : Bool
  is_super_jumping_off_wall_slide : Bool
  collided_with_boomerang : Bool
  collided_with_player : Bool
  is_dead : Bool
  will_die : Bool
  start : IntVector2D
  sound_commands : List (String × String × Int)
  particle_spawns : List (IntVector2D × String)
deriving DecidableEq, Repr

/-- `Player::new`.  The modelled fields are initialised per the spec (alive,
not about to die, spawn point = construction position, empty queues). -/
def Player.new (x y : Int) (is_facing_left : Bool) : Player where
  hitbox := { x := x, y := y, width := 6000, height := 12000 }
  velocity := { x := 0, y := 0 }
  current_animation := "idle"
  current_animation_frame := 0
  is_facing_left := is_facing_left
  was_on_ground := true
  was_on_wall := false
  can_double_jump := true
  can_dodge := true
  dodge_timer := 0
  dodge_timer_duration := DODGE_COOLDOWN
  dodge_cooldown := 0
  is_sliding := false
  is_wall_sliding := false
  is_super_jumping := false
  is_super_jumping_off_wall_slide := false
  collided_with_boomerang := false
  collided_with_player := false
  is_dead := false
  will_die := false
  start := { x := x, y := y }
  sound_commands := []
  particle_spawns := []

/-- Modelled from the spec: §3/§6 sound-command side channel — `add_sound_command`
(called from `game.rs`) appends a `(subject, command, volume)` triple. -/
def Player.add_sound_command (p : Player) (subject command : String)
    (volume : Int) : Player :=
  { p with sound_commands := p.sound_commands ++ [(subject, command, volume)] }

/-- `Player::center_x`. -/
def Player.center_x (p : Player) : Int := p.hitbox.x + p.hitbox.width.tdiv 2

/-- `Player::center_y`. -/
def Player.center_y (p : Player) : Int := p.hitbox.y + p.hitbox.height.tdiv 2

/-- `Player::collide`: probe the tile range covered by the hitbox placed at
`(virtual_x, virtual_y)` (Rust integer division truncates, and the width is
covered with a ceiling division), and report whether any occupied covered
tile's AABB overlaps the hitbox. -/
def Player.collide (p : Player) (level : Level) (virtual_x virtual_y : Int) : Bool :=
  let player_hitbox : Hitbox :=
    { x := virtual_x, y := virtual_y,
      width := p.hitbox.width, height := p.hitbox.height }
  let tile_x := virtual_x.tdiv TILE_SIZE
  let tile_y := virtual_y.tdiv TILE_SIZE
  let tile_width := (p.hitbox.width + TILE_SIZE - 1).tdiv TILE_SIZE
  let tile_height := (p.hitbox.height + TILE_SIZE - 1).tdiv TILE_SIZE
  (List.range (tile_width + 1).toNat).any fun check_x =>
    (List.range (tile_height + 1).toNat).any fun check_y =>
      level.check_grid (tile_x + (check_x : Int)) (tile_y + (check_y : Int)) &&
        do_hitboxes_overlap player_hitbox
          { x := (tile_x + (check_x : Int)) * TILE_SIZE,
            y := (tile_y + (check_y : Int)) * TILE_SIZE,
            width := TILE_SIZE, height := TILE_SIZE }

/-- `Player::check_entity_collisions`. -/
def Player.check_entity_collisions (p : Player)
    (other_player_hitbox other_boomerang_hitbox : Hitbox) : Player :=
  let p := if do_hitboxes_overlap p.hitbox other_player_hitbox then
    { p with collided_with_player := true } else p
  if do_hitboxes_overlap p.hitbox other_boomerang_hitbox then
    { p with collided_with_boomerang := true } else p

/-- `Player::move_collide_x` (uses the *pre-movement* contact flags). -/
def Player.move_collide_x (p : Player)
    (is_on_ground is_on_left_wall is_on_right_wall : Bool) : Player :=
  if is_on_ground then
    { p with velocity := { p.velocity with x := 0 } }
  else if is_on_left_wall then
    let p := { p with velocity := { p.velocity with x := max p.velocity.x (-WALL_STICKINESS) } }
    if p.dodge_timer > 0 then { p with is_wall_sliding := true } else p
  else if is_on_right_wall then
    let p := { p with velocity := { p.velocity with x := min p.velocity.x WALL_STICKINESS } }
    if p.dodge_timer > 0 then { p with is_wall_sliding := true } else p
  else p

/-- `Player::move_collide_y`. -/
def Player.move_collide_y (p : Player) : Player :=
  { p with velocity := { p.velocity with y := 0 } }

/-- The inner `while move_amount >= increments[i]` loop of `Player::move_by`
on the X axis: step by `inc` sub-pixel units while enough displacement
remains, committing a step only if the stepped position does not collide,
otherwise stopping at this granularity with the collision flag raised.
`fuel` only bounds the recursion (the loop consumes at least 1 of
`move_amount` per step, so callers pass `fuel = move_amount`). -/
def Player.sweep_x (level : Level)
    (other_player_hitbox other_boomerang_hitbox : Hitbox) (sign : Int)
    (inc : Nat) : Nat → Player → Nat → Player × Nat × Bool
  | 0, p, move_amount => (p, move_amount, false)
  | fuel + 1, p, move_amount =>
    if inc ≤ move_amount then
      if p.collide level (p.hitbox.x + (inc : Int) * sign) p.hitbox.y then
        (p, move_amount, true)
      else
        let p := { p with hitbox := { p.hitbox with x := p.hitbox.x + (inc : Int) * sign } }
        let p := p.check_entity_collisions other_player_hitbox other_boomerang_hitbox
        Player.sweep_x level other_player_hitbox other_boomerang_hitbox sign inc
          fuel p (move_amount - inc)
    else (p, move_amount, false)

/-- The inner stepping loop of `Player::move_by` on the Y axis. -/
def Player.sweep_y (level : Level)
    (other_player_hitbox other_boomerang_hitbox : Hitbox) (sign : Int)
    (inc : Nat) : Nat → Player → Nat → Player × Nat × Bool
  | 0, p, move_amount => (p, move_amount, false)
  | fuel + 1, p, move_amount =>
    if inc ≤ move_amount then
      if p.collide level p.hitbox.x (p.hitbox.y + (inc : Int) * sign) then
        (p, move_amount, true)
      else
        let p := { p with hitbox := { p.hitbox with y := p.hitbox.y + (inc : Int) * sign } }
        let p := p.check_entity_collisions other_player_hitbox other_boomerang_hitbox
        Player.sweep_y level other_player_hitbox other_boomerang_hitbox sign inc
          fuel p (move_amount - inc)
    else (p, move_amount, false)

/-- The swept X phase of `Player::move_by`: strictly decreasing granularities
1000, 100, 10, 1; a collision at one granularity stops that granularity and
falls through to the next smaller one; the collided flag accumulates. -/
def Player.move_x_swept (p : Player) (level : Level)
    (other_player_hitbox other_boomerang_hitbox : Hitbox) (move_x : Int) :
    Player × Bool :=
  let sign : Int := if move_x > 0 then 1 else -1
  let a0 := move_x.natAbs
  let r1 := Player.sweep_x level other_player_hitbox other_boomerang_hitbox sign 1000 a0 p a0
  let r2 := Player.sweep_x level other_player_hitbox other_boomerang_hitbox sign 100 r1.2.1 r1.1 r1.2.1
  let r3 := Player.sweep_x level other_player_hitbox other_boomerang_hitbox sign 10 r2.2.1 r2.1 r2.2.1
  let r4 := Player.sweep_x level other_player_hitbox other_boomerang_hitbox sign 1 r3.2.1 r3.1 r3.2.1
  (r4.1, r1.2.2 || r2.2.2 || r3.2.2 || r4.2.2)

/-- The swept Y phase of `Player::move_by`. -/
def Player.move_y_swept (p : Player) (level : Level)
    (other_player_hitbox other_boomerang_hitbox : Hitbox) (move_y : Int) :
    Player × Bool :=
  let sign : Int := if move_y > 0 then 1 else -1
  let a0 := move_y.natAbs
  let r1 := Player.sweep_y level other_player_hitbox other_boomerang_hitbox sign 1000 a0 p a0
  let r2 := Player.sweep_y level other_player_hitbox other_boomerang_hitbox sign 100 r1.2.1 r1.1 r1.2.1
  let r3 := Player.sweep_y level other_player_hitbox other_boomerang_hitbox sign 10 r2.2.1 r2.1 r2.2.1
  let r4 := Player.sweep_y level other_player_hitbox other_boomerang_hitbox sign 1 r3.2.1 r3.1 r3.2.1
  (r4.1, r1.2.2 || r2.2.2 || r3.2.2 || r4.2.2)

/-- `Player::move_by`: X axis fully resolved (with its post-collision
response) before the Y axis, then a final entity-collision check. -/
def Player.move_by (p : Player) (level : Level) (move_x move_y : Int)
    (sweep : Bool) (is_on_ground is_on_left_wall is_on_right_wall : Bool)
    (other_player_hitbox other_boomerang_hitbox : Hitbox) : Player :=
  let rx :=
    if sweep || p.collide level (p.hitbox.x + move_x) p.hitbox.y then
      p.move_x_swept level other_player_hitbox other_boomerang_hitbox move_x
    else ({ p with hitbox := { p.hitbox with x := p.hitbox.x + move_x } }, false)
  let p := rx.1
  let p := if rx.2 then p.move_collide_x is_on_ground is_on_left_wall is_on_right_wall else p
  let ry :=
    if sweep || p.collide level p.hitbox.x (p.hitbox.y + move_y) then
      p.move_y_swept level other_player_hitbox other_boomerang_hitbox move_y
    else ({ p with hitbox := { p.hitbox with y := p.hitbox.y + move_y } }, false)
  let p := ry.1
  let p := if ry.2 then p.move_collide_y else p
  p.check_entity_collisions other_player_hitbox other_boomerang_hitbox

/-- `Player::reset_dodge_timer`. -/
def Player.reset_dodge_timer (p : Player) (new_duration : Int) : Player :=
  { p with dodge_timer := new_duration, dodge_timer_duration := new_duration }

/-- `Player::set_animation`. -/
def Player.set_animation (p : Player) (new_animation : String) : Player :=
  if p.current_animation ≠ new_animation then
    { p with current_animation := new_animation, current_animation_frame := 0 }
  else { p with current_animation := new_animation }

/-- The dodge-heading derivation at the start of a dodge
(`player.rs` lines 308–325): facing direction as fallback, then the
`LEFT` / `RIGHT` / (`UP`-or-`DOWN` zeroes x) else-if chain, then the
vertical component. -/
def dodge_heading (input : Nat) (is_facing_left : Bool) : IntVector2D :=
  let h : IntVector2D := { x := 1, y := 0 }
  let h := if is_facing_left then { h with x := -1 } else h
  let h :=
    if input_check INPUT_LEFT input then { h with x := -1 }
    else if input_check INPUT_RIGHT input then { h with x := 1 }
    else if input_check INPUT_UP input || input_check INPUT_DOWN input then { h with x := 0 }
    else h
  if input_check INPUT_UP input then { h with y := -1 }
  else if input_check INPUT_DOWN input then { h with y := 1 }
  else h

/-- The horizontal acceleration/deceleration and speed-cap section of
`Player::movement` (`player.rs` lines 353–381). -/
def Player.horizontal_movement (p : Player) (input : Nat)
    (is_on_ground is_on_left_wall is_on_right_wall is_on_wall : Bool) : Player :=
  let accel := if is_on_ground then RUN_ACCEL else AIR_ACCEL
  let accel :=
    if is_on_ground &&
        (input_check INPUT_LEFT input && decide (p.velocity.x > 0) ||
         input_check INPUT_RIGHT input && decide (p.velocity.x < 0)) then
      accel * RUN_ACCEL_TURN_MULTIPLIER
    else accel
  let decel := if is_on_ground then RUN_DECEL else AIR_DECEL
  let p :=
    if input_check INPUT_LEFT input && !is_on_left_wall then
      { p with velocity := { p.velocity with x := p.velocity.x - accel.tdiv OG_FPS } }
    else if input_check INPUT_RIGHT input && !is_on_right_wall then
      { p with velocity := { p.velocity with x := p.velocity.x + accel.tdiv OG_FPS } }
    else if !is_on_wall then
      { p with velocity := { p.velocity with x := approach p.velocity.x 0 (decel.tdiv OG_FPS) } }
    else p
  let max_speed := if is_on_ground then MAX_RUN_SPEED else MAX_AIR_SPEED
  let max_speed :=
    if p.is_super_jumping then
      if p.is_super_jumping_off_wall_slide then MAX_SUPERJUMP_SPEED_X_OFF_WALL_SLIDE
      else MAX_SUPERJUMP_SPEED_X
    else max_speed
  { p with velocity := { p.velocity with x := clamp p.velocity.x (-max_speed) max_speed } }

/-- The vertical section of `Player::movement` (`player.rs` lines 383–438):
grounded / on-wall / airborne cases with jumps, wall jumps, double jump,
short-hop clip, gravity and fall-speed caps. -/
def Player.vertical_movement (p : Player) (input prev_input : Nat)
    (is_on_ground is_on_left_wall is_on_wall : Bool) : Player :=
  if is_on_ground then
    let p := { p with can_double_jump := true, can_dodge := true,
                      velocity := { p.velocity with y := 0 } }
    if input_pressed INPUT_JUMP input prev_input then
      { p with velocity := { p.velocity with y := -JUMP_POWER } }
    else p
  else if is_on_wall then
    let gravity := if p.velocity.y > 0 then GRAVITY_ON_WALL else GRAVITY
    let p := { p with velocity :=
      { p.velocity with y := min (p.velocity.y + gravity.tdiv OG_FPS) MAX_FALL_SPEED_ON_WALL } }
    if input_pressed INPUT_JUMP input prev_input then
      { p with velocity :=
        { x := if is_on_left_wall then WALL_JUMP_POWER_X else -WALL_JUMP_POWER_X,
          y := -WALL_JUMP_POWER_Y } }
    else p
  else
    let p :=
      if input_pressed INPUT_JUMP input prev_input && p.can_double_jump then
        let p := { p with velocity := { p.velocity with y := -DOUBLE_JUMP_POWER_Y } }
        let p :=
          if decide (p.velocity.x > 0) && input_check INPUT_LEFT input ||
              decide (p.velocity.x < 0) && input_check INPUT_RIGHT input then
            { p with velocity := { p.velocity with x := 0 } }
          else p
        { p with can_double_jump := false }
      else p
    let p :=
      if input_released INPUT_JUMP input prev_input && !p.is_super_jumping then
        { p with velocity := { p.velocity with y := max p.velocity.y (-JUMP_CANCEL_POWER) } }
      else p
    let gravity :=
      if input_check INPUT_DOWN input && decide (p.velocity.y > -JUMP_CANCEL_POWER) &&
          !p.is_super_jumping then FASTFALL_GRAVITY
      else GRAVITY
    let max_fall_speed :=
      if input_check INPUT_DOWN input && decide (p.velocity.y > -JUMP_CANCEL_POWER) &&
          !p.is_super_jumping then MAX_FASTFALL_SPEED
      else MAX_FALL_SPEED
    { p with velocity :=
      { p.velocity with y := min (p.velocity.y + gravity.tdiv OG_FPS) max_fall_speed } }

/-- `Player::movement` (the non-dodging branch of the per-frame update):
dodge start on a dodge-input edge, otherwise acceleration, vertical motion,
contact-flag bookkeeping and the swept move. -/
def Player.movement (p : Player) (input prev_input : Nat) (level : Level)
    (is_on_ground is_on_left_wall is_on_right_wall is_on_wall : Bool)
    (other_player_hitbox other_boomerang_hitbox : Hitbox) : Player :=
  if input_pressed INPUT_DODGE input prev_input && decide (p.dodge_timer = 0) &&
      decide (p.dodge_cooldown = 0) && p.can_dodge then
    let dh := dodge_heading input p.is_facing_left
    let r : Player × IntVector2D :=
      if input_check INPUT_DOWN input then
        ({ p.reset_dodge_timer SLIDE_DURATION with is_sliding := true }, dh)
      else if is_on_left_wall && decide (dh.x < 0) ||
          is_on_right_wall && decide (dh.x > 0) then
        ({ p.reset_dodge_timer DODGE_DURATION with is_wall_sliding := true },
          { dh with y := dh.y * 2 })
      else
        ({ p.reset_dodge_timer DODGE_DURATION with is_sliding := false }, dh)
    { r.1 with velocity := r.2.normalize DODGE_SPEED, can_dodge := false }
  else
    let p :=
      if is_on_ground || is_on_wall then
        { p with is_super_jumping := false, is_super_jumping_off_wall_slide := false }
      else p
    let p := p.horizontal_movement input is_on_ground is_on_left_wall is_on_right_wall is_on_wall
    let p := p.vertical_movement input prev_input is_on_ground is_on_left_wall is_on_wall
    let p := { p with was_on_ground := is_on_ground, was_on_wall := is_on_wall }
    p.move_by level (p.velocity.x.tdiv OG_FPS) (p.velocity.y.tdiv OG_FPS) true
      is_on_ground is_on_left_wall is_on_right_wall
      other_player_hitbox other_boomerang_hitbox

/-- `Player::dodge_movement` (the mid-dodge branch): slide / wall-slide
physics, slide super jump with its timer-relative jump-power modifier, super
wall jump, and the swept move. -/
def Player.dodge_movement (p : Player) (input prev_input : Nat) (level : Level)
    (is_on_ground is_on_left_wall is_on_right_wall is_on_wall : Bool)
    (other_player_hitbox other_boomerang_hitbox : Hitbox) : Player :=
  let p :=
    if p.is_sliding then
      let gravity :=
        if input_check INPUT_DOWN input && decide (p.velocity.y > -JUMP_CANCEL_POWER) then
          FASTFALL_GRAVITY
        else GRAVITY
      let p := { p with velocity :=
        { p.velocity with y := min (p.velocity.y + gravity.tdiv OG_FPS) MAX_FASTFALL_SPEED } }
      let p := { p with velocity :=
        { p.velocity with x := approach p.velocity.x 0 (SLIDE_DECEL.tdiv OG_FPS) } }
      if input_pressed INPUT_JUMP input prev_input then
        let numerator := fix_from_int p.dodge_timer
        let denominator := fix_from_int p.dodge_timer_duration
        let jump_modifier :=
          satFix (3 * 2 ^ 30 + fix_saturating_mul (2 ^ 31)
            (fix_saturating_div numerator denominator))
        let p := { p with velocity :=
          { x := fix_saturating_to_i32
              (fix_saturating_mul (fix_from_int p.velocity.x) jump_modifier),
            y := fix_saturating_to_i32
              (fix_saturating_div (fix_from_int (-JUMP_POWER)) jump_modifier) } }
        let p := { p with dodge_timer := 0, is_sliding := false }
        if fix_saturating_div numerator denominator > 2 ^ 31 then
          { p with is_super_jumping := true }
        else p
      else p
    else if p.is_wall_sliding then
      let gravity :=
        if input_check INPUT_DOWN input && decide (p.velocity.y > -JUMP_CANCEL_POWER) then
          FASTFALL_GRAVITY
        else GRAVITY
      let p := { p with velocity :=
        { p.velocity with y := min (p.velocity.y + gravity.tdiv OG_FPS) MAX_FASTFALL_SPEED } }
      if input_pressed INPUT_JUMP input prev_input then
        let p :=
          if p.velocity.y < 0 then
            { p with velocity := { p.velocity with y := -SUPER_WALL_JUMP_POWER_Y } }
          else p
        let p := { p with velocity :=
          { p.velocity with x :=
              if is_on_left_wall then SUPER_WALL_JUMP_POWER_X else -SUPER_WALL_JUMP_POWER_X } }
        { p with dodge_timer := 0, is_wall_sliding := false,
                 is_super_jumping := true, is_super_jumping_off_wall_slide := true }
      else p
    else p
  let p := { p with was_on_ground := is_on_ground, was_on_wall := is_on_wall }
  p.move_by level (p.velocity.x.tdiv OG_FPS) (p.velocity.y.tdiv OG_FPS) true
    is_on_ground is_on_left_wall is_on_right_wall
    other_player_hitbox other_boomerang_hitbox

/-- The wall-slide release block of `Player::advance` (`player.rs`
lines 148–153), using the re-computed post-movement wall flags. -/
def Player.wallslide_release (p : Player) (is_on_wall : Bool) : Player :=
  if p.is_wall_sliding && !is_on_wall then
    let p := { p with is_wall_sliding := false }
    if p.was_on_wall && decide (p.velocity.y ≤ 0) then
      { p with velocity := { p.velocity with y := -JUMP_CANCEL_POWER * 2 } }
    else p
  else p

/-- The animation block of `Player::advance` (`player.rs` lines 155–180);
`is_on_ground` is the pre-movement flag, the wall flags are the re-computed
post-movement ones. -/
def Player.animation_update (p : Player) (input : Nat)
    (is_on_ground is_on_wall is_on_left_wall : Bool) : Player :=
  let p := { p with current_animation_frame := p.current_animation_frame + 1 }
  if !is_on_ground then
    if is_on_wall then
      { p.set_animation "wall" with is_facing_left := is_on_left_wall }
    else
      let p := p.set_animation "jump"
      if input_check INPUT_LEFT input then { p with is_facing_left := true }
      else if input_check INPUT_RIGHT input then { p with is_facing_left := false }
      else p
  else if decide (p.velocity.x ≠ 0) then
    let p :=
      if decide (p.velocity.x > 0) && input_check INPUT_LEFT input ||
          decide (p.velocity.x < 0) && input_check INPUT_RIGHT input then
        p.set_animation "skid"
      else p.set_animation "run"
    { p with is_facing_left := decide (p.velocity.x < 0) }
  else p.set_animation "idle"

/-- The timer block at the end of `Player::advance` (`player.rs`
lines 182–198): both timers `approach` zero by one unit; on the frame the
dodge timer hits zero, the slide flag (else the wall-slide flag, else a
velocity adjustment by vertical-velocity sign) is processed and the dodge
cooldown restarts. -/
def Player.tick_timers (p : Player) : Player :=
  let prev_dodge_timer := p.dodge_timer
  let p := { p with dodge_timer := approach p.dodge_timer 0 1,
                    dodge_cooldown := approach p.dodge_cooldown 0 1 }
  if decide (p.dodge_timer = 0) && decide (prev_dodge_timer > 0) then
    let p :=
      if p.is_sliding then { p with is_sliding := false }
      else if p.is_wall_sliding then { p with is_wall_sliding := false }
      else if p.velocity.y < 0 then
        { p with velocity := { p.velocity with y := -JUMP_CANCEL_POWER } }
      else if p.velocity.y > 0 then
        { p with velocity := { p.velocity with y := MAX_FALL_SPEED.tdiv 2 } }
      else p
    { p with dodge_cooldown := DODGE_COOLDOWN }
  else p

/-- `Player::advance`: contact probes, transient-flag clearing, the dodge or
normal movement branch, wall-flag recomputation with the wall-slide release,
the animation block, and the timer block. -/
def Player.advance (p : Player) (input prev_input : Nat) (level : Level)
    (other_player_hitbox other_boomerang_hitbox : Hitbox) : Player :=
  let is_on_ground := p.collide level p.hitbox.x (p.hitbox.y + 1)
  let is_on_left_wall := p.collide level (p.hitbox.x - 1) p.hitbox.y
  let is_on_right_wall := p.collide level (p.hitbox.x + 1) p.hitbox.y
  let is_on_wall := is_on_left_wall || is_on_right_wall
  let p := { p with collided_with_player := false, collided_with_boomerang := false }
  let p :=
    if p.dodge_timer > 0 then
      p.dodge_movement input prev_input level is_on_ground is_on_left_wall
        is_on_right_wall is_on_wall other_player_hitbox other_boomerang_hitbox
    else
      p.movement input prev_input level is_on_ground is_on_left_wall
        is_on_right_wall is_on_wall other_player_hitbox other_boomerang_hitbox
  let is_on_left_wall := p.collide level (p.hitbox.x - 1) p.hitbox.y
  let is_on_right_wall := p.collide level (p.hitbox.x + 1) p.hitbox.y
  let is_on_wall := is_on_left_wall || is_on_right_wall
  let p := p.wallslide_release is_on_wall
  let p := p.animation_update input is_on_ground is_on_wall is_on_left_wall
  p.tick_timers

/-! ## `boomerang.rs` -/

namespace Boomerang

def MAX_SPEED : Int := 300 * 1000

/-- `RETURN_RATE = 0.75` as an `I32F32` bit pattern. -/
def RETURN_RATE : Int := 3 * 2 ^ 30

end Boomerang

/-- The boomerang state.  The trailing `sound_commands` queue is used by
`game.rs`/`main.rs` but its declaration is not part of the `boomerang.rs`
in `src/`.  Modelled from the spec: §3/§6 sound-command side channel. -/
structure Boomerang where
  hitbox : Hitbox
  velocity : IntVector2D
  initial_velocity : IntVector2D
  current_animation : String
  current_animation_frame : Nat
  is_holstered : Bool
  flight_time : Int
  collided_with_player : Bool
  sound_commands : List (String × String × Int)
deriving DecidableEq, Repr

/-- `Boomerang::new`. -/
def Boomerang.new : Boomerang where
  hitbox := { x := 0, y := 0, width := 8000, height := 8000 }
  velocity := { x := 0, y := 0 }
  initial_velocity := { x := 0, y := 0 }
  current_animation := "idle"
  current_animation_frame := 0
  is_holstered := true
  flight_time := 0
  collided_with_player := false
  sound_commands := []

/-- Modelled from the spec: §3/§6 sound-command side channel. -/
def Boomerang.add_sound_command (b : Boomerang) (subject command : String)
    (volume : Int) : Boomerang :=
  { b with sound_commands := b.sound_commands ++ [(subject, command, volume)] }

/-- `Boomerang::center_x`. -/
def Boomerang.center_x (b : Boomerang) : Int := b.hitbox.x + b.hitbox.width.tdiv 2

/-- `Boomerang::center_y`. -/
def Boomerang.center_y (b : Boomerang) : Int := b.hitbox.y + b.hitbox.height.tdiv 2

/-- `Boomerang::check_entity_collisions`. -/
def Boomerang.check_entity_collisions (b : Boomerang)
    (other_player_hitbox : Hitbox) : Boomerang :=
  if do_hitboxes_overlap b.hitbox other_player_hitbox then
    { b with collided_with_player := true }
  else b

/-- The attack-heading derivation on an attack-input edge
(`boomerang.rs` lines 57–74); same shape as the dodge heading. -/
def attack_heading (input : Nat) (is_facing_left : Bool) : IntVector2D :=
  let h : IntVector2D := { x := 1, y := 0 }
  let h := if is_facing_left then { h with x := -1 } else h
  let h :=
    if input_check INPUT_LEFT input then { h with x := -1 }
    else if input_check INPUT_RIGHT input then { h with x := 1 }
    else if input_check INPUT_UP input || input_check INPUT_DOWN input then { h with x := 0 }
    else h
  if input_check INPUT_UP input then { h with y := -1 }
  else if input_check INPUT_DOWN input then { h with y := 1 }
  else h

/-- The inner stepping loop of `Boomerang::move_by` on the X axis: steps are
committed unconditionally (no tile-collision test), with an entity-collision
check after every committed step.  `fuel` only bounds the recursion; callers
pass `fuel = move_amount`. -/
def Boomerang.sweep_x (other_player_hitbox : Hitbox) (sign : Int)
    (inc : Nat) : Nat → Boomerang → Nat → Boomerang × Nat
  | 0, b, move_amount => (b, move_amount)
  | fuel + 1, b, move_amount =>
    if inc ≤ move_amount then
      let b := { b with hitbox := { b.hitbox with x := b.hitbox.x + (inc : Int) * sign } }
      let b := b.check_entity_collisions other_player_hitbox
      Boomerang.sweep_x other_player_hitbox sign inc fuel b (move_amount - inc)
    else (b, move_amount)

/-- The inner stepping loop of `Boomerang::move_by` on the Y axis. -/
def Boomerang.sweep_y (other_player_hitbox : Hitbox) (sign : Int)
    (inc : Nat) : Nat → Boomerang → Nat → Boomerang × Nat
  | 0, b, move_amount => (b, move_amount)
  | fuel + 1, b, move_amount =>
    if inc ≤ move_amount then
      let b := { b with hitbox := { b.hitbox with y := b.hitbox.y + (inc : Int) * sign } }
      let b := b.check_entity_collisions other_player_hitbox
      Boomerang.sweep_y other_player_hitbox sign inc fuel b (move_amount - inc)
    else (b, move_amount)

/-- `Boomerang::move_by`: granularities 1000, 100, 10, 1 on X then on Y,
with no tile-collision checks. -/
def Boomerang.move_by (b : Boomerang) (move_x move_y : Int)
    (other_player_hitbox : Hitbox) : Boomerang :=
  let sign : Int := if move_x > 0 then 1 else -1
  let a0 := move_x.natAbs
  let r1 := Boomerang.sweep_x other_player_hitbox sign 1000 a0 b a0
  let r2 := Boomerang.sweep_x other_player_hitbox sign 100 r1.2 r1.1 r1.2
  let r3 := Boomerang.sweep_x other_player_hitbox sign 10 r2.2 r2.1 r2.2
  let r4 := Boomerang.sweep_x other_player_hitbox sign 1 r3.2 r3.1 r3.2
  let b := r4.1
  let sign : Int := if move_y > 0 then 1 else -1
  let a0 := move_y.natAbs
  let s1 := Boomerang.sweep_y other_player_hitbox sign 1000 a0 b a0
  let s2 := Boomerang.sweep_y other_player_hitbox sign 100 s1.2 s1.1 s1.2
  let s3 := Boomerang.sweep_y other_player_hitbox sign 10 s2.2 s2.1 s2.2
  let s4 := Boomerang.sweep_y other_player_hitbox sign 1 s3.2 s3.1 s3.2
  s4.1

/-- `Boomerang::advance`: attack launch on an attack-input edge; holstered
tracking of the owner's center with the flight time pinned to zero;
in-flight homing (lerp between the retained initial velocity and the
normalized toward-owner vector), the re-holster test after the minimum
flight frames, else the swept move and a flight-time increment. -/
def Boomerang.advance (b : Boomerang) (input prev_input : Nat)
    (player : Player) (other_player_hitbox : Hitbox) : Boomerang :=
  let b := { b with collided_with_player := false }
  let b :=
    if input_pressed INPUT_ATTACK input prev_input then
      let v := (attack_heading input player.is_facing_left).normalize Boomerang.MAX_SPEED
      { b with velocity := v, initial_velocity := v, is_holstered := false }
    else b
  let b :=
    if b.is_holstered then
      let hb := { b.hitbox with x := player.center_x - b.hitbox.width.tdiv 2,
                                y := player.center_y - b.hitbox.height.tdiv 2 }
      { b with hitbox := hb, flight_time := 0 }
    else
      let towards_player : IntVector2D :=
        { x := player.center_x - b.center_x, y := player.center_y - b.center_y }
      let distance_from_player := towards_player.length_as_int
      let towards_player := towards_player.normalize Boomerang.MAX_SPEED
      let lerp_factor :=
        fix_saturating_mul
          (fix_saturating_div (fix_from_int b.flight_time) (fix_from_int OG_FPS))
          Boomerang.RETURN_RATE
      let lerp_factor := if lerp_factor > fixScale then fixScale else lerp_factor
      let b := { b with velocity :=
        { x := lerp b.initial_velocity.x towards_player.x lerp_factor,
          y := lerp b.initial_velocity.y towards_player.y lerp_factor } }
      let towards_player := towards_player.normalize (Boomerang.MAX_SPEED.tdiv OG_FPS)
      if decide (b.flight_time > 6) &&
          decide (towards_player.length_as_int ≥ distance_from_player) then
        { b with is_holstered := true, flight_time := 0 }
      else
        let b := b.move_by (b.velocity.x.tdiv OG_FPS) (b.velocity.y.tdiv OG_FPS)
          other_player_hitbox
        { b with flight_time := b.flight_time + 1 }
  { b with current_animation_frame := b.current_animation_frame + 1 }

/-! ## `particle.rs` -/

structure Particle where
  position : IntVector2D
  velocity : IntVector2D
  current_animation : String
  current_animation_frame : Nat
deriving DecidableEq, Repr

def GROUND_DUST_ANIMATION_SPEED : Nat := 4
def GROUND_DUST_ANIMATION_FRAMES : Nat := 5
def SIMPLE_ANIMATION_SPEED : Nat := 10
def SIMPLE_ANIMATION_FRAMES : Nat := 5

/-- `Particle::new`. -/
def Particle.new : Particle where
  position := { x := 0, y := 0 }
  velocity := { x := 0, y := 0 }
  current_animation := "none"
  current_animation_frame := 0

/-- `Particle::set_animation` (a change of animation resets the frame counter
and zeroes the velocity). -/
def Particle.set_animation (pt : Particle) (new_animation : String) : Particle :=
  if pt.current_animation ≠ new_animation then
    { pt with current_animation := new_animation, current_animation_frame := 0,
              velocity := pt.velocity.zero_out }
  else { pt with current_animation := new_animation }

/-- `Particle::advance`: frame counter, auto-free at the animation's frame
budget, then drift by the velocity. -/
def Particle.advance (pt : Particle) : Particle :=
  let pt := { pt with current_animation_frame := pt.current_animation_frame + 1 }
  let pt :=
    if pt.current_animation = "grounddust" then
      if pt.current_animation_frame ≥
          GROUND_DUST_ANIMATION_SPEED * GROUND_DUST_ANIMATION_FRAMES then
        pt.set_animation "none"
      else pt
    else if pt.current_animation = "simple" then
      if pt.current_animation_frame ≥
          SIMPLE_ANIMATION_SPEED * SIMPLE_ANIMATION_FRAMES then
        pt.set_animation "none"
      else pt
    else pt
  { pt with position := { x := pt.position.x + pt.velocity.x,
                          y := pt.position.y + pt.velocity.y } }

/-! ## `curtain.rs` -/

def MAX_OPACITY : Int := 100

structure Curtain where
  opacity : Int
deriving DecidableEq, Repr

/-- `Curtain::new`. -/
def Curtain.new : Curtain where
  opacity := MAX_OPACITY

/-- `Curtain::advance`. -/
def Curtain.advance (c : Curtain) : Curtain :=
  let c := { c with opacity := c.opacity - 1 }
  if c.opacity < 0 then { c with opacity := 0 } else c

/-! ## `game.rs` -/

/-- `fletcher16`, the checksum over a serialized byte stream (each entry of
`data` is a byte value; the final `(sum2 << 8) | sum1` combines two sums
that are both below 255). -/
def fletcher16 (data : List Nat) : Nat :=
  let sums := data.foldl
    (fun (acc : Nat × Nat) byte =>
      let sum1 := (acc.1 + byte) % 255
      (sum1, (acc.2 + sum1) % 255))
    (0, 0)
  Nat.lor (sums.2 <<< 8) sums.1

/-- The aggregate simulation snapshot (`game.rs` `State`).  The two-element
Rust arrays are pairs; the 100-slot particle pool is a list (of length 100
in every state the driver constructs). -/
structure State where
  frame : Int
  prev_inputs : Nat × Nat
  players : Player × Player
  boomerangs : Boomerang × Boomerang
  round_start_frame : Int
  round_end_frame : Int
  particles : List Particle
  curtain : Curtain
deriving DecidableEq, Repr

/-- Read the player at index `i` (`false` = index 0, `true` = index 1 —
the Rust loop index; `!i` is `1 - player_num`). -/
def getp (s : State) (i : Bool) : Player :=
  if i then s.players.2 else s.players.1

/-- Write the player at index `i`. -/
def setp (s : State) (i : Bool) (p : Player) : State :=
  if i then { s with players := (s.players.1, p) }
  else { s with players := (p, s.players.2) }

/-- Read the boomerang at index `i`. -/
def getb (s : State) (i : Bool) : Boomerang :=
  if i then s.boomerangs.2 else s.boomerangs.1

/-- Write the boomerang at index `i`. -/
def setb (s : State) (i : Bool) (b : Boomerang) : State :=
  if i then { s with boomerangs := (s.boomerangs.1, b) }
  else { s with boomerangs := (b, s.boomerangs.2) }

/-- Select the frame input of player `i` from the per-frame input pair. -/
def pick (inputs : Nat × Nat) (i : Bool) : Nat :=
  if i then inputs.2 else inputs.1

/-- `State::new` (the 100-slot particle pool, two players at the
level-defined spawn points — one pixel up — and player two facing left). -/
def State.new (level_player_starts : IntVector2D × IntVector2D) : State where
  frame := 0
  prev_inputs := (0, 0)
  players :=
    (Player.new level_player_starts.1.x (level_player_starts.1.y - 1) false,
     { Player.new level_player_starts.2.x (level_player_starts.2.y - 1) true with
         is_facing_left := true })
  boomerangs := (Boomerang.new, Boomerang.new)
  round_start_frame := 0
  round_end_frame := -1
  particles := List.replicate 100 Particle.new
  curtain := Curtain.new

/-- `State::reset` (round reset: both players and boomerangs recreated at
the spawn points, timers cleared, `round_end_frame` back to the sentinel). -/
def State.reset (s : State) : State :=
  let player_one := Player.new s.players.1.start.x s.players.1.start.y false
  let player_two := Player.new s.players.2.start.x s.players.2.start.y false
  { s with prev_inputs := (0, 0),
           players := (player_one, player_two),
           boomerangs := (Boomerang.new, Boomerang.new),
           round_start_frame := s.frame,
           round_end_frame := -1 }

/-- `State::get_free_particle_index`: the first slot whose animation tag is
the `"none"` sentinel, or slot 0 when the pool is exhausted. -/
def State.get_free_particle_index (s : State) : Nat :=
  match s.particles.findIdx? (fun pt => pt.current_animation == "none") with
  | some particle_num => particle_num
  | none => 0

/-- Mutate the particle at `idx` (the source indexes `particles[idx]`
directly; `idx` is always in range for the 100-slot pool). -/
def State.update_particle (s : State) (idx : Nat) (f : Particle → Particle) : State :=
  { s with particles := s.particles.set idx (f (s.particles.getD idx Particle.new)) }

/-- The per-player body of the player-update loop of `State::advance`: dead
players only get their looping sounds stopped; a living player advances
against the opponent hitbox snapshots taken at this point of the loop. -/
def State.player_step (s : State) (inputs : Nat × Nat) (level : Level) (i : Bool) : State :=
  if (getp s i).is_dead then
    setp s i (((getp s i).add_sound_command "run" "stop" 100).add_sound_command
      "wallslide" "stop" 100)
  else
    let input := pick inputs i
    let other_player_hitbox := (getp s (!i)).hitbox
    let other_boomerang_hitbox := (getb s (!i)).hitbox
    setp s i ((getp s i).advance input (pick s.prev_inputs i) level
      other_player_hitbox other_boomerang_hitbox)

/-- The per-player body of the boomerang-update loop of `State::advance`. -/
def State.boomerang_step (s : State) (inputs : Nat × Nat) (i : Bool) : State :=
  if (getp s i).is_dead then
    setb s i ((getb s i).add_sound_command "whoosh" "stop" 100)
  else
    let input := pick inputs i
    let other_player_hitbox := (getp s (!i)).hitbox
    setb s i ((getb s i).advance input (pick s.prev_inputs i) (getp s i)
      other_player_hitbox)

/-- Drain player `i`'s queued particle spawns (the source pops from the back
of the `Vec` until it is empty), allocating each from the first free slot. -/
def State.spawn_queued_particles_for (s : State) (i : Bool) : State :=
  let s := (getp s i).particle_spawns.reverse.foldl
    (fun s spawn =>
      let particle_num := s.get_free_particle_index
      let s := s.update_particle particle_num
        (fun pt => { pt with position := { x := spawn.1.x, y := spawn.1.y } })
      s.update_particle particle_num (fun pt => pt.set_animation spawn.2))
    s
  setp s i { (getp s i) with particle_spawns := [] }

/-- The combat-interaction loops of `State::advance` (`game.rs`
lines 439–465): first propagate each living player's boomerang hit to the
opposing player's `collided_with_boomerang`, then flag `will_die`. -/
def State.propagate_boomerang_hit (s : State) (i : Bool) : State :=
  if (getp s i).is_dead then s
  else if (getb s i).collided_with_player then
    setp s (!i) { (getp s (!i)) with collided_with_boomerang := true }
  else s

/-- The `will_die` marking step for player `i` (`game.rs` lines 448–465). -/
def State.mark_will_die (s : State) (i : Bool) : State :=
  if (getp s i).is_dead then s
  else
    let s :=
      if (getp s i).collided_with_player && decide ((getp s i).dodge_timer = 0) &&
          decide ((getp s (!i)).dodge_timer > 0) then
        setp s i { (getp s i) with will_die := true }
      else s
    if (getp s i).collided_with_boomerang && decide ((getp s i).dodge_timer = 0) &&
        !(getb s (!i)).is_holstered then
      setp s i { (getp s i) with will_die := true }
    else s

/-- The combat-interaction section of `State::advance`. -/
def State.combat_interactions (s : State) : State :=
  let s := s.propagate_boomerang_hit false
  let s := s.propagate_boomerang_hit true
  let s := s.mark_will_die false
  s.mark_will_die true

/-- The 25 radial departure directions of the death explosion
(`game.rs` lines 481–490), x-major, each normalized to speed 9000. -/
def explosion_angles : List IntVector2D :=
  let values : List Int := [-10, -5, 0, 5, 10]
  (values.map fun x_val => values.map fun y_val =>
    IntVector2D.normalize { x := x_val, y := y_val } 9000).flatten

/-- The kill step for player `i` (`game.rs` lines 468–505): a living player
flagged `will_die` dies, its boomerang is force-holstered,
`round_end_frame` is stamped with the current frame, and a ring of
departure particles is spawned (skipping the exact-zero direction). -/
def State.kill_player (s : State) (i : Bool) : State :=
  if (getp s i).is_dead then s
  else if (getp s i).will_die then
    let s := setp s i { (getp s i) with will_die := false, is_dead := true }
    let s := setb s i { (getb s i) with is_holstered := true }
    let s := { s with round_end_frame := s.frame }
    let s := setp s i ((getp s i).add_sound_command "death" "play" 100)
    explosion_angles.foldl
      (fun s angle =>
        if decide (angle.x = 0) && decide (angle.y = 0) then s
        else
          let particle_num := s.get_free_particle_index
          let s := s.update_particle particle_num
            (fun pt => { pt with position :=
              { x := (getp s i).center_x, y := (getp s i).center_y } })
          let s := s.update_particle particle_num (fun pt => pt.set_animation "simple")
          s.update_particle particle_num
            (fun pt => { pt with velocity := { x := angle.x, y := angle.y } }))
      s
  else s

/-- The kill loop of `State::advance`. -/
def State.kill_players (s : State) : State :=
  (s.kill_player false).kill_player true

/-- Everything `State::advance` does before the combat-interaction section:
frame increment, curtain, players, boomerangs, particle spawning and the
particle update. -/
def State.pre_combat (s : State) (inputs : Nat × Nat) (level : Level) : State :=
  let s := { s with frame := s.frame + 1 }
  let s := { s with curtain := s.curtain.advance }
  let s := s.player_step inputs level false
  let s := s.player_step inputs level true
  let s := s.boomerang_step inputs false
  let s := s.boomerang_step inputs true
  let s := s.spawn_queued_particles_for false
  let s := s.spawn_queued_particles_for true
  { s with particles := s.particles.map Particle.advance }

/-- `State::advance`: one logical frame, a pure function of
(previous state, this frame's two input bitmasks, the immutable level). -/
def State.advance (s : State) (inputs : Nat × Nat) (level : Level) : State :=
  let s := s.pre_combat inputs level
  let s := s.combat_interactions
  let s := s.kill_players
  { s with prev_inputs := inputs }

/-- Iterated `State::advance` over an input sequence (what the rollback
driver does when it re-simulates a frame range). -/
def run_advance (s : State) (inputs : List (Nat × Nat)) (level : Level) : State :=
  inputs.foldl (fun s inp => s.advance inp level) s

/-! ## Byte serialization of `State` (bincode's fixed-width little-endian
encoding, as used by `bincode::serialize(&state)` for the checksum). -/

/-- A little-endian 4-byte two's-complement `i32`. -/
def i32_bytes (n : Int) : List Nat :=
  let u := (n.emod (2 ^ 32)).toNat
  [u % 256, u / 256 % 256, u / 256 ^ 2 % 256, u / 256 ^ 3 % 256]

/-- A little-endian 8-byte `u64` (also used for `usize` and lengths). -/
def u64_bytes (n : Nat) : List Nat :=
  [n % 256, n / 256 % 256, n / 256 ^ 2 % 256, n / 256 ^ 3 % 256,
   n / 256 ^ 4 % 256, n / 256 ^ 5 % 256, n / 256 ^ 6 % 256, n / 256 ^ 7 % 256]

def bool_bytes (b : Bool) : List Nat := [if b then 1 else 0]

def u8_bytes (n : Nat) : List Nat := [n % 256]

/-- Length-prefixed UTF-8 string (every animation/sound tag is ASCII). -/
def string_bytes (s : String) : List Nat :=
  u64_bytes s.length ++ s.data.map Char.toNat

def vec_bytes (f : α → List Nat) (l : List α) : List Nat :=
  u64_bytes l.length ++ (l.map f).flatten

def ivec_bytes (v : IntVector2D) : List Nat := i32_bytes v.x ++ i32_bytes v.y

def hitbox_bytes (h : Hitbox) : List Nat :=
  i32_bytes h.x ++ i32_bytes h.y ++ i32_bytes h.width ++ i32_bytes h.height

def sound_command_bytes (c : String × String × Int) : List Nat :=
  string_bytes c.1 ++ string_bytes c.2.1 ++ i32_bytes c.2.2

def particle_spawn_bytes (sp : IntVector2D × String) : List Nat :=
  ivec_bytes sp.1 ++ string_bytes sp.2

def player_bytes (p : Player) : List Nat :=
  hitbox_bytes p.hitbox ++ ivec_bytes p.velocity ++
  string_bytes p.current_animation ++ u64_bytes p.current_animation_frame ++
  bool_bytes p.is_facing_left ++ bool_bytes p.was_on_ground ++
  bool_bytes p.was_on_wall ++ bool_bytes p.can_double_jump ++
  bool_bytes p.can_dodge ++ i32_bytes p.dodge_timer ++
  i32_bytes p.dodge_timer_duration ++ i32_bytes p.dodge_cooldown ++
  bool_bytes p.is_sliding ++ bool_bytes p.is_wall_sliding ++
  bool_bytes p.is_super_jumping ++ bool_bytes p.is_super_jumping_off_wall_slide ++
  bool_bytes p.collided_with_boomerang ++ bool_bytes p.collided_with_player ++
  bool_bytes p.is_dead ++ bool_bytes p.will_die ++ ivec_bytes p.start ++
  vec_bytes sound_command_bytes p.sound_commands ++
  vec_bytes particle_spawn_bytes p.particle_spawns

def boomerang_bytes (b : Boomerang) : List Nat :=
  hitbox_bytes b.hitbox ++ ivec_bytes b.velocity ++ ivec_bytes b.initial_velocity ++
  string_bytes b.current_animation ++ u64_bytes b.current_animation_frame ++
  bool_bytes b.is_holstered ++ i32_bytes b.flight_time ++
  bool_bytes b.collided_with_player ++
  vec_bytes sound_command_bytes b.sound_commands

def particle_bytes (pt : Particle) : List Nat :=
  ivec_bytes pt.position ++ ivec_bytes pt.velocity ++
  string_bytes pt.current_animation ++ u64_bytes pt.current_animation_frame

def curtain_bytes (c : Curtain) : List Nat := i32_bytes c.opacity

/-- The serialized form of a `State` (field by field, in declaration order;
the fixed-size arrays are emitted element by element). -/
def state_bytes (s : State) : List Nat :=
  i32_bytes s.frame ++
  u8_bytes s.prev_inputs.1 ++ u8_bytes s.prev_inputs.2 ++
  player_bytes s.players.1 ++ player_bytes s.players.2 ++
  boomerang_bytes s.boomerangs.1 ++ boomerang_bytes s.boomerangs.2 ++
  i32_bytes s.round_start_frame ++ i32_bytes s.round_end_frame ++
  (s.particles.map particle_bytes).flatten ++
  curtain_bytes s.curtain

/-- The state checksum the session driver stores with each snapshot. -/
def State.checksum (s : State) : Nat := fletcher16 (state_bytes s)

/-! ## Concrete fixtures used by the witnesses and counterexamples -/

/-- A 4×4-tile level whose bottom row is solid. -/
def demo_level : Level where
  width_in_tiles := 4
  height_in_tiles := 4
  grid := List.replicate 12 false ++ List.replicate 4 true

/-- A level with no tiles at all. -/
def empty_level : Level where
  width_in_tiles := 0
  height_in_tiles := 0
  grid := []

/-- An opponent/boomerang hitbox far away from every fixture position. -/
def far_hitbox : Hitbox where
  x := 1000000
  y := 1000000
  width := 100
  height := 100

/-! ## C4 — inclusive AABB overlap -/

/-- C4: `do_hitboxes_overlap` reports rectangles that touch exactly at an
edge (e.g. `a.x + a.width = b.x`, with the vertical ranges meeting) as
overlapping, and returns `false` exactly when one rectangle lies strictly
beyond the other on some axis. -/
theorem c4_overlap_inclusive (a b : Hitbox) :
    (0 ≤ a.width → 0 ≤ b.width → a.x + a.width = b.x →
      a.y ≤ b.y + b.height → b.y ≤ a.y + a.height →
      do_hitboxes_overlap a b = true) ∧
    (do_hitboxes_overlap a b = false ↔
      a.x > b.x + b.width ∨ b.x > a.x + a.width ∨
      a.y > b.y + b.height ∨ b.y > a.y + a.height) := by
  unfold do_hitboxes_overlap
  constructor
  · intro h1 h2 h3 h4 h5
    simp only [Bool.not_eq_true', Bool.or_eq_false_iff, decide_eq_false_iff_not, not_lt]
    omega
  · rw [Bool.not_eq_false']
    simp only [Bool.or_eq_true, decide_eq_true_eq]
    omega

/-- C4 witness: two 4000-unit tiles touching exactly at an edge are reported
as overlapping. -/
theorem c4_overlap_inclusive_witness :
    do_hitboxes_overlap { x := 0, y := 0, width := 4000, height := 4000 }
      { x := 4000, y := 0, width := 4000, height := 4000 } = true ∧
    (do_hitboxes_overlap { x := 0, y := 0, width := 4000, height := 4000 }
      { x := 9000, y := 0, width := 4000, height := 4000 } = false ↔
      (0 : Int) > 9000 + 4000 ∨ (9000 : Int) > 0 + 4000 ∨
      (0 : Int) > 0 + 4000 ∨ (0 : Int) > 0 + 4000) :=
  ⟨(c4_overlap_inclusive _ _).1 (by decide) (by decide) (by decide) (by decide)
    (by decide),
   (c4_overlap_inclusive _ _).2⟩

/-! ## C8 — grid queries -/

/-- C8: `Level::check_grid` returns `false` (not an error) for any
out-of-bounds tile coordinate, and otherwise returns the occupancy bitmap
entry at index `tile_x + tile_y * width_in_tiles` (a valid index whenever
the grid has its `width·height` entries). -/
theorem c8_check_grid (level : Level) (tile_x tile_y : Int)
    (hWF : level.grid.length = (level.width_in_tiles * level.height_in_tiles).toNat) :
    ((tile_x < 0 ∨ tile_x ≥ level.width_in_tiles ∨ tile_y < 0 ∨
        tile_y ≥ level.height_in_tiles) →
      level.check_grid tile_x tile_y = false) ∧
    (0 ≤ tile_x → tile_x < level.width_in_tiles →
     0 ≤ tile_y → tile_y < level.height_in_tiles →
      ∃ h : (tile_x + tile_y * level.width_in_tiles).toNat < level.grid.length,
        level.check_grid tile_x tile_y =
          level.grid.get ⟨(tile_x + tile_y * level.width_in_tiles).toNat, h⟩) := by
  constructor
  · intro hoob
    unfold Level.check_grid
    have : (tile_x < 0 || tile_x ≥ level.width_in_tiles || tile_y < 0 ||
        tile_y ≥ level.height_in_tiles) = true := by
      simp only [Bool.or_eq_true, decide_eq_true_eq]
      tauto
    rw [if_pos this]
  · intro h1 h2 h3 h4
    have hidx : (tile_x + tile_y * level.width_in_tiles).toNat < level.grid.length := by
      rw [hWF]
      have hxy : tile_x + tile_y * level.width_in_tiles <
          level.width_in_tiles * level.height_in_tiles := by nlinarith
      have hnn : 0 ≤ tile_x + tile_y * level.width_in_tiles := by nlinarith
      omega
    refine ⟨hidx, ?_⟩
    unfold Level.check_grid
    have : (tile_x < 0 || tile_x ≥ level.width_in_tiles || tile_y < 0 ||
        tile_y ≥ level.height_in_tiles) = false := by
      simp only [Bool.or_eq_false_iff, decide_eq_false_iff_not, not_lt, ge_iff_le, not_le]
      omega
    rw [if_neg (by simp [this])]
    exact List.getD_eq_getElem level.grid false hidx

/-- C8 witness: an out-of-bounds query on the demo level and the in-bounds
entry of its solid bottom row. -/
theorem c8_check_grid_witness :
    demo_level.check_grid (-1) 0 = false ∧
    ∃ h : ((0 : Int) + 3 * demo_level.width_in_tiles).toNat < demo_level.grid.length,
      demo_level.check_grid 0 3 =
        demo_level.grid.get ⟨((0 : Int) + 3 * demo_level.width_in_tiles).toNat, h⟩ :=
  ⟨(c8_check_grid demo_level (-1) 0 (by decide)).1 (by left; decide),
   (c8_check_grid demo_level 0 3 (by decide)).2 (by decide) (by decide) (by decide)
     (by decide)⟩

/-! ## C9 — particle pool allocation -/

/-- C9: `State::get_free_particle_index` never fails: it returns the lowest
index whose animation tag is the `"none"` sentinel, and falls back to slot 0
(overwriting the in-flight particle there) when no slot is free. -/
theorem c9_free_particle_index (s : State) :
    ((∀ pt ∈ s.particles, pt.current_animation ≠ "none") →
      s.get_free_particle_index = 0) ∧
    ((∃ pt ∈ s.particles, pt.current_animation = "none") →
      ∃ h : s.get_free_particle_index < s.particles.length,
        (s.particles.get ⟨s.get_free_particle_index, h⟩).current_animation = "none" ∧
        ∀ m (hm : m < s.get_free_particle_index),
          (s.particles.get ⟨m, Nat.lt_trans hm h⟩).current_animation ≠ "none") := by
  constructor
  · intro hbusy
    unfold State.get_free_particle_index
    have hnone : s.particles.findIdx? (fun pt => pt.current_animation == "none") = none := by
      rw [List.findIdx?_eq_none_iff]
      intro pt hpt
      simpa using hbusy pt hpt
    rw [hnone]
  · intro ⟨pt, hpt, hfree⟩
    have hsome : ∃ i, s.particles.findIdx? (fun pt => pt.current_animation == "none") = some i := by
      rcases h : s.particles.findIdx? (fun pt => pt.current_animation == "none") with _ | i
      · rw [List.findIdx?_eq_none_iff] at h
        have := h pt hpt
        simp [hfree] at this
      · exact ⟨i, h⟩
    obtain ⟨i, hi⟩ := hsome
    have hchar := List.findIdx?_eq_some_iff_getElem.mp hi
    obtain ⟨hlt, hp, hmin⟩ := hchar
    have hres : s.get_free_particle_index = i := by
      unfold State.get_free_particle_index
      rw [hi]
    rw [hres]
    refine ⟨hlt, by simpa using hp, ?_⟩
    intro m hm
    have := hmin m hm
    simpa using this

/-- A two-slot pool with slot 0 busy and slot 1 free. -/
def c9_state_a : State where
  frame := 0
  prev_inputs := (0, 0)
  players := (Player.new 0 0 false, Player.new 0 0 false)
  boomerangs := (Boomerang.new, Boomerang.new)
  round_start_frame := 0
  round_end_frame := -1
  particles := [{ Particle.new with current_animation := "simple" }, Particle.new]
  curtain := Curtain.new

/-- A two-slot pool with every slot busy. -/
def c9_state_b : State where
  frame := 0
  prev_inputs := (0, 0)
  players := (Player.new 0 0 false, Player.new 0 0 false)
  boomerangs := (Boomerang.new, Boomerang.new)
  round_start_frame := 0
  round_end_frame := -1
  particles := [{ Particle.new with current_animation := "simple" },
                { Particle.new with current_animation := "grounddust" }]
  curtain := Curtain.new

/-- C9 witness: a pool with a free slot yields its first free index; the
exhausted pool yields the fallback slot 0. -/
theorem c9_free_particle_index_witness :
    (∃ h : c9_state_a.get_free_particle_index < c9_state_a.particles.length,
      (c9_state_a.particles.get
        ⟨c9_state_a.get_free_particle_index, h⟩).current_animation = "none" ∧
      ∀ m (hm : m < c9_state_a.get_free_particle_index),
        (c9_state_a.particles.get
          ⟨m, Nat.lt_trans hm h⟩).current_animation ≠ "none") ∧
    c9_state_b.get_free_particle_index = 0 :=
  ⟨(c9_free_particle_index c9_state_a).2 ⟨Particle.new, by decide, rfl⟩,
   (c9_free_particle_index c9_state_b).1 (by decide)⟩

/-! ## C1 — determinism of `State::advance` -/

/-- C1: `State::advance` (and hence any iterated re-run of it) is a pure
function of the previous state, the frame inputs and the immutable level:
identical runs produce an identical resulting `State` and an identical
`fletcher16` checksum of its serialization.  The embedding exhibits the
transition as a total function of exactly these three arguments — mirroring
the source, which reads no clock and no state outside `State`. -/
theorem c1_determinism (s1 s2 : State) (i1 i2 : List (Nat × Nat)) (l1 l2 : Level)
    (hs : s1 = s2) (hi : i1 = i2) (hl : l1 = l2) :
    run_advance s1 i1 l1 = run_advance s2 i2 l2 ∧
      (run_advance s1 i1 l1).checksum = (run_advance s2 i2 l2).checksum := by
  subst hs; subst hi; subst hl
  exact ⟨rfl, rfl⟩

/-- C1 witness: a two-frame re-run from a concrete state on the demo level. -/
theorem c1_determinism_witness :
    run_advance (State.new ({ x := 4000, y := 0 }, { x := 8000, y := 0 }))
        [(0, 0), (INPUT_LEFT, INPUT_RIGHT)] demo_level =
      run_advance (State.new ({ x := 4000, y := 0 }, { x := 8000, y := 0 }))
        [(0, 0), (INPUT_LEFT, INPUT_RIGHT)] demo_level ∧
    (run_advance (State.new ({ x := 4000, y := 0 }, { x := 8000, y := 0 }))
        [(0, 0), (INPUT_LEFT, INPUT_RIGHT)] demo_level).checksum =
      (run_advance (State.new ({ x := 4000, y := 0 }, { x := 8000, y := 0 }))
        [(0, 0), (INPUT_LEFT, INPUT_RIGHT)] demo_level).checksum :=
  c1_determinism _ _ _ _ _ _ rfl rfl rfl

/-! ## C5 — simultaneous LEFT+RIGHT input -/

/-- C5 counterexample: with both `INPUT_LEFT` and `INPUT_RIGHT` held the
player does *not* behave as with no horizontal input: the dodge heading
differs from the neutral one, and `Player::movement` accelerates the
grounded player leftward instead of decelerating toward zero. -/
theorem c5_counterexample :
    dodge_heading (Nat.lor INPUT_LEFT INPUT_RIGHT) false ≠ dodge_heading 0 false ∧
    ((Player.new 4000 (-1) false).movement (Nat.lor INPUT_LEFT INPUT_RIGHT) 0
        demo_level true false false false far_hitbox far_hitbox).velocity.x = -6666 ∧
    ((Player.new 4000 (-1) false).movement 0 0
        demo_level true false false false far_hitbox far_hitbox).velocity.x = 0 := by
  decide

/-- The amended description of the horizontal velocity update when both
horizontal bits are held: the `LEFT` branch wins (unless blocked by the left
wall, in which case the `RIGHT` branch runs), and the ground turn-around
multiplier fires whenever the horizontal velocity is nonzero. -/
def left_priority_velocity_x (p : Player) (ground lwall rwall : Bool) : Int :=
  let accel := if ground then RUN_ACCEL else AIR_ACCEL
  let accel :=
    if ground && decide (p.velocity.x ≠ 0) then accel * RUN_ACCEL_TURN_MULTIPLIER
    else accel
  let v1 :=
    if !lwall then p.velocity.x - accel.tdiv OG_FPS
    else if !rwall then p.velocity.x + accel.tdiv OG_FPS
    else p.velocity.x
  let max_speed := if ground then MAX_RUN_SPEED else MAX_AIR_SPEED
  let max_speed :=
    if p.is_super_jumping then
      if p.is_super_jumping_off_wall_slide then MAX_SUPERJUMP_SPEED_X_OFF_WALL_SLIDE
      else MAX_SUPERJUMP_SPEED_X
    else max_speed
  clamp v1 (-max_speed) max_speed

/-- C5 (amended): when both `INPUT_LEFT` and `INPUT_RIGHT` are set, the
`LEFT` bit test wins the else-if chains rather than the two directions
cancelling: the dodge heading x is `-1`, and the acceleration step follows
`left_priority_velocity_x` (with the on-wall flag derived from the two wall
flags, as `Player::advance` derives it). -/
theorem c5_left_priority (p : Player) (input : Nat) (f ground lwall rwall : Bool)
    (hl : input_check INPUT_LEFT input = true)
    (hr : input_check INPUT_RIGHT input = true) :
    (dodge_heading input f).x = -1 ∧
    (p.horizontal_movement input ground lwall rwall (lwall || rwall)).velocity.x =
      left_priority_velocity_x p ground lwall rwall := by
  constructor
  · unfold dodge_heading
    rw [hl]
    rcases h : input_check INPUT_UP input <;>
      rcases h' : input_check INPUT_DOWN input <;> simp
  · unfold Player.horizontal_movement left_priority_velocity_x
    rw [hl, hr]
    have hsign : (decide (p.velocity.x > 0) || decide (p.velocity.x < 0)) =
        decide (p.velocity.x ≠ 0) := by
      by_cases h : p.velocity.x = 0
      · simp [h]
      · rcases lt_or_gt_of_ne h with h' | h' <;> simp [h, h']
    simp only [Bool.true_and, hsign]
    rcases lwall with _ | _ <;> rcases rwall with _ | _ <;> simp

/-- C5 amended-claim witness at a concrete grounded player. -/
theorem c5_left_priority_witness :
    (dodge_heading (Nat.lor INPUT_LEFT INPUT_RIGHT) false).x = -1 ∧
    ((Player.new 4000 (-1) false).horizontal_movement (Nat.lor INPUT_LEFT INPUT_RIGHT)
        true false false (false || false)).velocity.x =
      left_priority_velocity_x (Player.new 4000 (-1) false) true false false :=
  c5_left_priority (Player.new 4000 (-1) false) (Nat.lor INPUT_LEFT INPUT_RIGHT)
    false true false false (by decide) (by decide)

/-! ## C6 — dodge timers -/

/-- The concrete sliding player of the C6 counterexample: one frame of dodge
left, sliding, ascending. -/
def c6_player : Player :=
  { Player.new 4000 (-1) false with
      dodge_timer := 1, is_sliding := true, velocity := { x := 0, y := -100000 } }

/-- C6 counterexample: on the frame the dodge timer of a *sliding* player
reaches zero, only the slide flag is cleared — the ascending player keeps
its vertical velocity (`-100000 + GRAVITY/60 = -91667` after the frame's
slide gravity) instead of receiving the claimed `-JUMP_CANCEL_POWER`
jump-cancel velocity. -/
theorem c6_counterexample :
    c6_player.dodge_timer = 1 ∧ c6_player.is_sliding = true ∧
    c6_player.velocity.y < 0 ∧
    (c6_player.advance 0 0 empty_level far_hitbox far_hitbox).dodge_timer = 0 ∧
    (c6_player.advance 0 0 empty_level far_hitbox far_hitbox).is_sliding = false ∧
    (c6_player.advance 0 0 empty_level far_hitbox far_hitbox).velocity.y = -91667 ∧
    (c6_player.advance 0 0 empty_level far_hitbox far_hitbox).velocity.y ≠
      -JUMP_CANCEL_POWER := by
  decide

/-- C6 (amended): in the timer block run at the end of every living player's
frame, both timers `approach` zero by exactly one unit (never below zero);
on the frame the dodge timer goes from positive to zero the cooldown is
reset to `DODGE_COOLDOWN`, and *either* the slide flag is cleared, *or else*
the wall-slide flag is cleared, *or else* (only when neither flag was set)
the sign of the vertical velocity selects the jump-cancel cap or half the
maximum fall speed. -/
theorem c6_timer_tick (p : Player) (ht : 0 ≤ p.dodge_timer) (hc : 0 ≤ p.dodge_cooldown) :
    (p.tick_timers.dodge_timer = max (p.dodge_timer - 1) 0) ∧
    (p.dodge_timer = 1 →
      p.tick_timers.dodge_cooldown = DODGE_COOLDOWN ∧
      (p.is_sliding = true →
        p.tick_timers.is_sliding = false ∧ p.tick_timers.velocity = p.velocity) ∧
      (p.is_sliding = false → p.is_wall_sliding = true →
        p.tick_timers.is_wall_sliding = false ∧ p.tick_timers.velocity = p.velocity) ∧
      (p.is_sliding = false → p.is_wall_sliding = false →
        (p.velocity.y < 0 → p.tick_timers.velocity.y = -JUMP_CANCEL_POWER) ∧
        (p.velocity.y > 0 → p.tick_timers.velocity.y = MAX_FALL_SPEED.tdiv 2) ∧
        (p.velocity.y = 0 → p.tick_timers.velocity = p.velocity))) ∧
    (p.dodge_timer ≠ 1 →
      p.tick_timers.dodge_cooldown = max (p.dodge_cooldown - 1) 0 ∧
      p.tick_timers.velocity = p.velocity ∧
      p.tick_timers.is_sliding = p.is_sliding ∧
      p.tick_timers.is_wall_sliding = p.is_wall_sliding) := by
  by_cases h1 : p.dodge_timer = 1
  · have ha : approach p.dodge_timer 0 1 = 0 := by unfold approach; omega
    have hg : (decide (approach p.dodge_timer 0 1 = 0) &&
        decide (p.dodge_timer > 0)) = true := by
      rw [ha, h1]; decide
    have ha1 : approach (1 : Int) 0 1 = 0 := by decide
    rcases hs : p.is_sliding <;> rcases hw : p.is_wall_sliding <;>
      [rcases lt_trichotomy p.velocity.y 0 with hy | hy | hy;
       rcases lt_trichotomy p.velocity.y 0 with hy | hy | hy;
       rcases lt_trichotomy p.velocity.y 0 with hy | hy | hy;
       rcases lt_trichotomy p.velocity.y 0 with hy | hy | hy] <;>
      (try simp [Player.tick_timers, hg, ha, ha1, h1, hs, hw, hy, lt_asymm hy,
        DODGE_COOLDOWN]) <;>
      (try simp [Player.tick_timers, hg, ha, ha1, h1, hs, hw, hy,
        DODGE_COOLDOWN]) <;>
      omega
  · have ha : approach p.dodge_timer 0 1 = max (p.dodge_timer - 1) 0 := by
      unfold approach; omega
    have hg : (decide (approach p.dodge_timer 0 1 = 0) &&
        decide (p.dodge_timer > 0)) = false := by
      rw [ha]
      rcases lt_or_ge 1 p.dodge_timer with h | h
      · have h' : ¬ (max (p.dodge_timer - 1) 0 = 0) := by omega
        simp [h']
      · have h' : ¬ (p.dodge_timer > 0) := by omega
        simp [h']
    have hb : approach p.dodge_cooldown 0 1 = max (p.dodge_cooldown - 1) 0 := by
      unfold approach; omega
    have hcond : ¬ (p.dodge_timer ≤ 1 ∧ 0 < p.dodge_timer) := by omega
    simp [Player.tick_timers, hg, ha, hb, h1, hcond]

/-- C6 amended-claim witness: the tick of the concrete sliding player. -/
theorem c6_timer_tick_witness :
    c6_player.tick_timers.dodge_timer = max (c6_player.dodge_timer - 1) 0 :=
  (c6_timer_tick c6_player (by decide) (by decide)).1

/-! ## C7 — boomerang re-holster -/

/-- The toward-owner vector an in-flight boomerang computes each frame
(`boomerang.rs` lines 85–88). -/
def towards_owner (b : Boomerang) (player : Player) : IntVector2D :=
  { x := player.center_x - b.center_x, y := player.center_y - b.center_y }

/-- C7: for an in-flight boomerang past the minimum flight-frame threshold
(6), if the projected one-frame step toward the owner (the toward-owner
vector normalized to `MAX_SPEED`, re-normalized to one frame's worth
`MAX_SPEED/OG_FPS`) would not decrease the remaining distance to the owner,
`Boomerang::advance` re-holsters it and resets the flight time to 0. -/
theorem c7_boomerang_reholster (b : Boomerang) (input prev_input : Nat)
    (player : Player) (other_player_hitbox : Hitbox)
    (hf : b.is_holstered = false)
    (ht : b.flight_time > 6)
    (hd : (((towards_owner b player).normalize Boomerang.MAX_SPEED).normalize
        (Boomerang.MAX_SPEED.tdiv OG_FPS)).length_as_int ≥
      (towards_owner b player).length_as_int) :
    (b.advance input prev_input player other_player_hitbox).is_holstered = true ∧
    (b.advance input prev_input player other_player_hitbox).flight_time = 0 := by
  unfold Boomerang.advance towards_owner at *
  simp only [Boomerang.center_x, Boomerang.center_y, ge_iff_le] at hd
  rcases h : input_pressed INPUT_ATTACK input prev_input <;>
    simp [h, hf, Boomerang.center_x, Boomerang.center_y, ht, hd]

/-- The concrete in-flight boomerang of the C7 witness: 7 frames of flight,
1000 sub-pixel units from its stationary owner's center (one frame's
homing step is 4999 units, which is not a decrease). -/
def c7_boomerang : Boomerang :=
  { Boomerang.new with is_holstered := false, flight_time := 7 }

set_option maxRecDepth 40000 in
/-- C7 witness: the boomerang 1000 units from its owner re-holsters with
`flight_time = 0`. -/
theorem c7_boomerang_reholster_witness :
    (c7_boomerang.advance 0 0 (Player.new 2000 (-2000) false) far_hitbox).is_holstered
        = true ∧
    (c7_boomerang.advance 0 0 (Player.new 2000 (-2000) false) far_hitbox).flight_time
        = 0 :=
  c7_boomerang_reholster c7_boomerang 0 0 (Player.new 2000 (-2000) false) far_hitbox
    (by decide) (by decide) (by decide)

/-! ## C10 — boomerang `move_by` -/

/-- The positions stepped through by one granularity of the boomerang's
unconditional sweep (the claim-side mirror of the `Boomerang.sweep_x` /
`Boomerang.sweep_y` loops, carrying only the coordinate). -/
def stepped_positions (sign : Int) (inc : Nat) : Nat → Int → Nat → List Int
  | 0, _, _ => []
  | fuel + 1, pos, amt =>
    if inc ≤ amt then
      (pos + (inc : Int) * sign) :: stepped_positions sign inc fuel (pos + (inc : Int) * sign) (amt - inc)
    else []

/-- One granularity of the X sweep: the position advances by the multiple of
`inc` that fits into the budget, the remaining budget is `amt % inc`, and the
collision flag accumulates an overlap test at every stepped position. -/
theorem bsweep_x_eq (oph : Hitbox) (sign : Int) (inc : Nat) (hpos : 0 < inc) :
    ∀ fuel amt (b : Boomerang), amt ≤ fuel →
    Boomerang.sweep_x oph sign inc fuel b amt =
      ({ b with
          hitbox := { b.hitbox with x := b.hitbox.x + ((amt - amt % inc : Nat) : Int) * sign },
          collided_with_player := b.collided_with_player ||
            (stepped_positions sign inc fuel b.hitbox.x amt).any
              (fun px => do_hitboxes_overlap { b.hitbox with x := px } oph) },
        amt % inc) := by
  intro fuel
  induction fuel with
  | zero =>
    intro amt b hle
    have : amt = 0 := by omega
    subst this
    simp [Boomerang.sweep_x, stepped_positions]
  | succ fuel ih =>
    intro amt b hle
    rw [Boomerang.sweep_x, stepped_positions]
    by_cases hin : inc ≤ amt
    · rw [if_pos hin, if_pos hin]
      have hmod : amt % inc = (amt - inc) % inc := by
        conv_lhs => rw [show amt = (amt - inc) + inc by omega]
        exact Nat.add_mod_right _ _
      have hco : (amt - inc) % inc ≤ amt - inc := Nat.mod_le _ _
      have hdisp : ((inc : Int)) + ((amt - inc) - (amt - inc) % inc : Nat) =
          ((amt - amt % inc : Nat) : Int) := by
        rw [hmod]
        push_cast [Nat.mod_le]
        omega
      set b1 : Boomerang :=
        { b with hitbox := { b.hitbox with x := b.hitbox.x + (inc : Int) * sign } } with hb1
      have hb2 : b1.check_entity_collisions oph =
          { b1 with collided_with_player :=
              b1.collided_with_player || do_hitboxes_overlap b1.hitbox oph } := by
        unfold Boomerang.check_entity_collisions
        split
        · simp_all
        · simp_all
      rw [ih (amt - inc) (b1.check_entity_collisions oph) (by omega), hb2, hb1]
      simp only [Boomerang.mk.injEq, Hitbox.mk.injEq, Prod.mk.injEq, List.any_cons,
        true_and, and_true]
      refine ⟨⟨?_, Bool.or_assoc _ _ _⟩, hmod.symm⟩
      rw [show b.hitbox.x + (inc : Int) * sign +
          ((amt - inc - (amt - inc) % inc : Nat) : Int) * sign =
          b.hitbox.x + ((inc : Int) + ((amt - inc - (amt - inc) % inc : Nat) : Int)) * sign
        by ring, hdisp]
    · rw [if_neg hin, if_neg hin]
      have hmod : amt % inc = amt := Nat.mod_eq_of_lt (by omega)
      simp [hmod]

/-- One granularity of the Y sweep. -/
theorem bsweep_y_eq (oph : Hitbox) (sign : Int) (inc : Nat) (hpos : 0 < inc) :
    ∀ fuel amt (b : Boomerang), amt ≤ fuel →
    Boomerang.sweep_y oph sign inc fuel b amt =
      ({ b with
          hitbox := { b.hitbox with y := b.hitbox.y + ((amt - amt % inc : Nat) : Int) * sign },
          collided_with_player := b.collided_with_player ||
            (stepped_positions sign inc fuel b.hitbox.y amt).any
              (fun py => do_hitboxes_overlap { b.hitbox with y := py } oph) },
        amt % inc) := by
  intro fuel
  induction fuel with
  | zero =>
    intro amt b hle
    have : amt = 0 := by omega
    subst this
    simp [Boomerang.sweep_y, stepped_positions]
  | succ fuel ih =>
    intro amt b hle
    rw [Boomerang.sweep_y, stepped_positions]
    by_cases hin : inc ≤ amt
    · rw [if_pos hin, if_pos hin]
      have hmod : amt % inc = (amt - inc) % inc := by
        conv_lhs => rw [show amt = (amt - inc) + inc by omega]
        exact Nat.add_mod_right _ _
      have hco : (amt - inc) % inc ≤ amt - inc := Nat.mod_le _ _
      have hdisp : ((inc : Int)) + ((amt - inc) - (amt - inc) % inc : Nat) =
          ((amt - amt % inc : Nat) : Int) := by
        rw [hmod]
        push_cast [Nat.mod_le]
        omega
      set b1 : Boomerang :=
        { b with hitbox := { b.hitbox with y := b.hitbox.y + (inc : Int) * sign } } with hb1
      have hb2 : b1.check_entity_collisions oph =
          { b1 with collided_with_player :=
              b1.collided_with_player || do_hitboxes_overlap b1.hitbox oph } := by
        unfold Boomerang.check_entity_collisions
        split
        · simp_all
        · simp_all
      rw [ih (amt - inc) (b1.check_entity_collisions oph) (by omega), hb2, hb1]
      simp only [Boomerang.mk.injEq, Hitbox.mk.injEq, Prod.mk.injEq, List.any_cons,
        true_and, and_true]
      refine ⟨⟨?_, Bool.or_assoc _ _ _⟩, hmod.symm⟩
      rw [show b.hitbox.y + (inc : Int) * sign +
          ((amt - inc - (amt - inc) % inc : Nat) : Int) * sign =
          b.hitbox.y + ((inc : Int) + ((amt - inc - (amt - inc) % inc : Nat) : Int)) * sign
        by ring, hdisp]
    · rw [if_neg hin, if_neg hin]
      have hmod : amt % inc = amt := Nat.mod_eq_of_lt (by omega)
      simp [hmod]

/-- All positions one axis of `Boomerang::move_by` steps through for a
requested displacement `m` from `pos0`: the four granularities in order,
each starting where the previous one stopped. -/
def swept_positions (pos0 : Int) (m : Int) : List Int :=
  let sign : Int := if m > 0 then 1 else -1
  let a0 := m.natAbs
  let p1 := pos0 + ((a0 - a0 % 1000 : Nat) : Int) * sign
  let p2 := p1 + ((a0 % 1000 - a0 % 100 : Nat) : Int) * sign
  let p3 := p2 + ((a0 % 100 - a0 % 10 : Nat) : Int) * sign
  stepped_positions sign 1000 a0 pos0 a0 ++
  stepped_positions sign 100 (a0 % 1000) p1 (a0 % 1000) ++
  stepped_positions sign 10 (a0 % 100) p2 (a0 % 100) ++
  stepped_positions sign 1 (a0 % 10) p3 (a0 % 10)

/-- The four greedy granularity phases together cover the whole requested
displacement. -/
theorem greedy_sum (z m : Int) :
    (((z + ((m.natAbs - m.natAbs % 1000 : Nat) : Int) * (if m > 0 then 1 else -1)) +
      ((m.natAbs % 1000 - m.natAbs % 100 : Nat) : Int) * (if m > 0 then 1 else -1)) +
      ((m.natAbs % 100 - m.natAbs % 10 : Nat) : Int) * (if m > 0 then 1 else -1)) +
      ((m.natAbs % 10 : Nat) : Int) * (if m > 0 then 1 else -1) = z + m := by
  have h1 : m.natAbs % 1000 ≤ m.natAbs := Nat.mod_le _ _
  have e1 : m.natAbs % 1000 % 100 = m.natAbs % 100 := Nat.mod_mod_of_dvd _ (by norm_num)
  have e2 : m.natAbs % 100 % 10 = m.natAbs % 10 := Nat.mod_mod_of_dvd _ (by norm_num)
  have h2 : m.natAbs % 100 ≤ m.natAbs % 1000 := by
    rw [← e1]; exact Nat.mod_le _ _
  have h3 : m.natAbs % 10 ≤ m.natAbs % 100 := by
    rw [← e2]; exact Nat.mod_le _ _
  have key : (m.natAbs - m.natAbs % 1000) + (m.natAbs % 1000 - m.natAbs % 100) +
      (m.natAbs % 100 - m.natAbs % 10) + m.natAbs % 10 = m.natAbs := by omega
  by_cases hm : m > 0
  · have hA : ((m.natAbs : Nat) : Int) = m := Int.natAbs_of_nonneg hm.le
    simp only [if_pos hm, mul_one]
    rw [show z + ((m.natAbs - m.natAbs % 1000 : Nat) : Int) +
        ((m.natAbs % 1000 - m.natAbs % 100 : Nat) : Int) +
        ((m.natAbs % 100 - m.natAbs % 10 : Nat) : Int) +
        ((m.natAbs % 10 : Nat) : Int) =
        z + (((m.natAbs - m.natAbs % 1000) + (m.natAbs % 1000 - m.natAbs % 100) +
          (m.natAbs % 100 - m.natAbs % 10) + m.natAbs % 10 : Nat) : Int) by push_cast; ring,
      key, hA]
  · have hA : ((m.natAbs : Nat) : Int) = -m := Int.ofNat_natAbs_of_nonpos (by omega)
    simp only [if_neg hm, mul_neg, mul_one]
    rw [show z + -((m.natAbs - m.natAbs % 1000 : Nat) : Int) +
        -((m.natAbs % 1000 - m.natAbs % 100 : Nat) : Int) +
        -((m.natAbs % 100 - m.natAbs % 10 : Nat) : Int) +
        -((m.natAbs % 10 : Nat) : Int) =
        z - (((m.natAbs - m.natAbs % 1000) + (m.natAbs % 1000 - m.natAbs % 100) +
          (m.natAbs % 100 - m.natAbs % 10) + m.natAbs % 10 : Nat) : Int) by push_cast; ring,
      key, hA]
    ring

/-- C10 (amended): `Boomerang::move_by` displaces the hitbox by exactly
`(move_x, move_y)` — it consults no level geometry (the function does not
even receive the level) — and it raises `collided_with_player` exactly when
the flag was already set or the hitbox at some committed sub-step position
overlaps the opposing player's hitbox.  The pre-move position itself is not
tested (a zero displacement performs no check at all). -/
theorem c10_moveby (b : Boomerang) (move_x move_y : Int) (oph : Hitbox) :
    (b.move_by move_x move_y oph).hitbox =
      { b.hitbox with x := b.hitbox.x + move_x, y := b.hitbox.y + move_y } ∧
    (b.move_by move_x move_y oph).collided_with_player =
      (b.collided_with_player ||
        (swept_positions b.hitbox.x move_x).any
          (fun px => do_hitboxes_overlap { b.hitbox with x := px } oph) ||
        (swept_positions b.hitbox.y move_y).any
          (fun py => do_hitboxes_overlap
            { b.hitbox with x := b.hitbox.x + move_x, y := py } oph)) := by
  simp only [Boomerang.move_by, swept_positions]
  rw [bsweep_x_eq oph _ 1000 (by norm_num) _ _ b le_rfl]
  dsimp only
  rw [bsweep_x_eq oph _ 100 (by norm_num) _ _ _ le_rfl]
  dsimp only
  rw [bsweep_x_eq oph _ 10 (by norm_num) _ _ _ le_rfl]
  dsimp only
  rw [bsweep_x_eq oph _ 1 (by norm_num) _ _ _ le_rfl]
  dsimp only
  rw [bsweep_y_eq oph _ 1000 (by norm_num) _ _ _ le_rfl]
  dsimp only
  rw [bsweep_y_eq oph _ 100 (by norm_num) _ _ _ le_rfl]
  dsimp only
  rw [bsweep_y_eq oph _ 10 (by norm_num) _ _ _ le_rfl]
  dsimp only
  rw [bsweep_y_eq oph _ 1 (by norm_num) _ _ _ le_rfl]
  dsimp only
  have e1 : ∀ n : Nat, n % 1000 % 100 = n % 100 :=
    fun n => Nat.mod_mod_of_dvd n (by norm_num)
  have e2 : ∀ n : Nat, n % 100 % 10 = n % 10 :=
    fun n => Nat.mod_mod_of_dvd n (by norm_num)
  simp only [e1, e2, Nat.mod_one, Nat.sub_zero, greedy_sum]
  simp [List.any_append, Bool.or_assoc]

/-- The in-flight boomerang of the C10 counterexample, overlapping the
opponent at its current position. -/
def c10_boomerang : Boomerang :=
  { Boomerang.new with is_holstered := false }

/-- C10 counterexample: the boomerang's current position already overlaps the
opposing player's hitbox, yet `move_by` with a zero displacement performs no
entity check and leaves `collided_with_player` unset. -/
theorem c10_counterexample :
    do_hitboxes_overlap c10_boomerang.hitbox
      { x := 0, y := 0, width := 6000, height := 12000 } = true ∧
    c10_boomerang.collided_with_player = false ∧
    (c10_boomerang.move_by 0 0
      { x := 0, y := 0, width := 6000, height := 12000 }).collided_with_player = false := by
  decide

/-! ## C2 — no tunneling -/

/-- The AABB of the tile at tile coordinates `(i, j)`. -/
def tile_hitbox (i j : Int) : Hitbox :=
  { x := i * TILE_SIZE, y := j * TILE_SIZE, width := TILE_SIZE, height := TILE_SIZE }

/-- Proper (interior) overlap of two rectangles: the notion of "ending up
inside a tile", i.e. tunneling; touching edges do not count. -/
def strictly_overlaps (a b : Hitbox) : Prop :=
  b.x < a.x + a.width ∧ a.x < b.x + b.width ∧ b.y < a.y + a.height ∧ a.y < b.y + b.height

/-- The defining facts of Rust's truncating `/` and `%` by the tile size. -/
theorem tmod_facts (x : Int) :
    4000 * (x.tdiv 4000) + x.tmod 4000 = x ∧
    -4000 < x.tmod 4000 ∧ x.tmod 4000 < 4000 ∧
    (0 ≤ x → 0 ≤ x.tmod 4000) ∧ (x ≤ 0 → x.tmod 4000 ≤ 0) := by
  refine ⟨Int.tdiv_add_tmod x 4000, ?_, Int.tmod_lt_of_pos x (by norm_num), ?_, ?_⟩
  · rcases le_or_lt 0 x with h | h
    · have := Int.tmod_nonneg (a := x) 4000 h
      omega
    · match x with
      | Int.negSucc m =>
        show -4000 < -(Int.ofNat ((m + 1) % 4000))
        have : (m + 1) % 4000 < 4000 := Nat.mod_lt _ (by norm_num)
        simp only [Int.ofNat_eq_coe]
        omega
  · intro h
    exact Int.tmod_nonneg 4000 h
  · intro h
    match x with
    | Int.ofNat n =>
      have : n = 0 := by
        simp only [Int.ofNat_eq_coe] at h
        omega
      subst this
      simp
    | Int.negSucc m =>
      show -(Int.ofNat ((m + 1) % 4000)) ≤ 0
      simp only [Int.ofNat_eq_coe]
      omega

/-- Probe coverage: `Player::collide` finds every occupied tile whose AABB
properly overlaps the hitbox — the truncating tile division and the
ceiling-divided probe window cover all such tiles (also at negative
coordinates, where truncation shifts the window start toward zero but
occupied tiles only exist at nonnegative indices). -/
theorem collide_of_strict_overlap (p : Player) (level : Level) (x y : Int)
    (hw : 0 ≤ p.hitbox.width) (hh : 0 ≤ p.hitbox.height) (i j : Int)
    (hg : level.check_grid i j = true)
    (hov : strictly_overlaps
      { x := x, y := y, width := p.hitbox.width, height := p.hitbox.height }
      (tile_hitbox i j)) :
    p.collide level x y = true := by
  obtain ⟨hov1, hov2, hov3, hov4⟩ := hov
  simp only [tile_hitbox, TILE_SIZE] at hov1 hov2 hov3 hov4
  -- bounds of the occupied tile
  have hij : 0 ≤ i ∧ i < level.width_in_tiles ∧ 0 ≤ j ∧ j < level.height_in_tiles := by
    unfold Level.check_grid at hg
    by_cases hc : (decide (i < 0) || decide (i ≥ level.width_in_tiles) ||
        decide (j < 0) || decide (j ≥ level.height_in_tiles)) = true
    · rw [if_pos hc] at hg
      exact absurd hg (by simp)
    · simp only [Bool.or_eq_true, decide_eq_true_eq, not_or] at hc
      omega
  obtain ⟨hq1, hq1a, hq2, hq3, hq4⟩ := tmod_facts x
  obtain ⟨hr1, hr1a, hr2, hr3, hr4⟩ := tmod_facts y
  obtain ⟨hw1, hw2, hw2a, hw3, -⟩ := tmod_facts (p.hitbox.width + 4000 - 1)
  obtain ⟨hh1, hh2, hh2a, hh3, -⟩ := tmod_facts (p.hitbox.height + 4000 - 1)
  set tx := x.tdiv 4000 with htx
  set ty := y.tdiv 4000 with hty
  set tw := (p.hitbox.width + 4000 - 1).tdiv 4000 with htw
  set th := (p.hitbox.height + 4000 - 1).tdiv 4000 with hth
  -- placement of the occupied tile inside the probe window
  have hxlo : tx ≤ i := by
    rcases le_or_lt 0 x with hx | hx
    · have := hq3 hx; omega
    · have := hq4 hx.le; omega
  have hxhi : i ≤ tx + tw := by
    have h1 : 4000 * tx ≥ x - 3999 := by
      rcases le_or_lt 0 x with hx | hx
      · have := hq3 hx; omega
      · have := hq4 hx.le; omega
    have h2 : 4000 * tw ≥ p.hitbox.width := by
      have := hw3 (by omega); omega
    omega
  have hylo : ty ≤ j := by
    rcases le_or_lt 0 y with hy | hy
    · have := hr3 hy; omega
    · have := hr4 hy.le; omega
  have hyhi : j ≤ ty + th := by
    have h1 : 4000 * ty ≥ y - 3999 := by
      rcases le_or_lt 0 y with hy | hy
      · have := hr3 hy; omega
      · have := hr4 hy.le; omega
    have h2 : 4000 * th ≥ p.hitbox.height := by
      have := hh3 (by omega); omega
    omega
  -- the probe finds the tile
  unfold Player.collide
  simp only [TILE_SIZE, List.any_eq_true, List.mem_range]
  refine ⟨(i - tx).toNat, ?_, (j - ty).toNat, ?_, ?_⟩
  · omega
  · omega
  · have hci : tx + ((i - tx).toNat : Int) = i := by omega
    have hcj : ty + ((j - ty).toNat : Int) = j := by omega
    rw [hci, hcj, hg]
    simp only [Bool.true_and]
    unfold do_hitboxes_overlap
    simp only [Bool.not_eq_true', Bool.or_eq_false_iff, decide_eq_false_iff_not, not_lt]
    omega

/-- `check_entity_collisions` never moves the hitbox. -/
theorem pcheck_hitbox (p : Player) (a b : Hitbox) :
    (p.check_entity_collisions a b).hitbox = p.hitbox := by
  unfold Player.check_entity_collisions
  dsimp only
  split <;> split <;> rfl

/-- `Player::collide` only reads the hitbox dimensions of the receiver. -/
theorem collide_congr (p q : Player) (level : Level) (a b : Int)
    (hw : q.hitbox.width = p.hitbox.width) (hh : q.hitbox.height = p.hitbox.height) :
    q.collide level a b = p.collide level a b := by
  unfold Player.collide
  rw [hw, hh]

/-- The X post-collision response only changes the velocity. -/
theorem pmcx_hitbox (p : Player) (g l r : Bool) :
    (p.move_collide_x g l r).hitbox = p.hitbox := by
  unfold Player.move_collide_x
  dsimp only
  split <;> [rfl; split <;> [(split <;> rfl); (split <;> [(split <;> rfl); rfl])]]

/-- The Y post-collision response only changes the velocity. -/
theorem pmcy_hitbox (p : Player) : p.move_collide_y.hitbox = p.hitbox := rfl

/-- One granularity of the swept X movement preserves "the current position
does not collide": a step is committed only if the stepped position is
collision-free. -/
theorem psweep_x_pres (level : Level) (oph obh : Hitbox) (sign : Int) (inc : Nat) :
    ∀ fuel amt (p : Player),
    p.collide level p.hitbox.x p.hitbox.y = false →
    ((Player.sweep_x level oph obh sign inc fuel p amt).1.collide level
        (Player.sweep_x level oph obh sign inc fuel p amt).1.hitbox.x
        (Player.sweep_x level oph obh sign inc fuel p amt).1.hitbox.y = false) ∧
    (Player.sweep_x level oph obh sign inc fuel p amt).1.hitbox.width = p.hitbox.width ∧
    (Player.sweep_x level oph obh sign inc fuel p amt).1.hitbox.height = p.hitbox.height := by
  intro fuel
  induction fuel with
  | zero => intro amt p hp; exact ⟨hp, rfl, rfl⟩
  | succ fuel ih =>
    intro amt p hp
    rw [Player.sweep_x]
    by_cases hin : inc ≤ amt
    · rw [if_pos hin]
      by_cases hcol : p.collide level (p.hitbox.x + (inc : Int) * sign) p.hitbox.y = true
      · rw [if_pos hcol]
        exact ⟨hp, rfl, rfl⟩
      · rw [if_neg hcol]
        set p1 : Player :=
          { p with hitbox := { p.hitbox with x := p.hitbox.x + (inc : Int) * sign } } with hp1
        set p2 := p1.check_entity_collisions oph obh with hp2
        have hhit : p2.hitbox = p1.hitbox := pcheck_hitbox p1 oph obh
        have hfalse : p2.collide level p2.hitbox.x p2.hitbox.y = false := by
          rw [collide_congr p p2 level _ _ (by rw [hhit]) (by rw [hhit]), hhit]
          simpa using hcol
        obtain ⟨h1, h2, h3⟩ := ih (amt - inc) p2 hfalse
        exact ⟨h1, by rw [h2, hhit], by rw [h3, hhit]⟩
    · rw [if_neg hin]
      exact ⟨hp, rfl, rfl⟩

/-- One granularity of the swept Y movement preserves non-collision. -/
theorem psweep_y_pres (level : Level) (oph obh : Hitbox) (sign : Int) (inc : Nat) :
    ∀ fuel amt (p : Player),
    p.collide level p.hitbox.x p.hitbox.y = false →
    ((Player.sweep_y level oph obh sign inc fuel p amt).1.collide level
        (Player.sweep_y level oph obh sign inc fuel p amt).1.hitbox.x
        (Player.sweep_y level oph obh sign inc fuel p amt).1.hitbox.y = false) ∧
    (Player.sweep_y level oph obh sign inc fuel p amt).1.hitbox.width = p.hitbox.width ∧
    (Player.sweep_y level oph obh sign inc fuel p amt).1.hitbox.height = p.hitbox.height := by
  intro fuel
  induction fuel with
  | zero => intro amt p hp; exact ⟨hp, rfl, rfl⟩
  | succ fuel ih =>
    intro amt p hp
    rw [Player.sweep_y]
    by_cases hin : inc ≤ amt
    · rw [if_pos hin]
      by_cases hcol : p.collide level p.hitbox.x (p.hitbox.y + (inc : Int) * sign) = true
      · rw [if_pos hcol]
        exact ⟨hp, rfl, rfl⟩
      · rw [if_neg hcol]
        set p1 : Player :=
          { p with hitbox := { p.hitbox with y := p.hitbox.y + (inc : Int) * sign } } with hp1
        set p2 := p1.check_entity_collisions oph obh with hp2
        have hhit : p2.hitbox = p1.hitbox := pcheck_hitbox p1 oph obh
        have hfalse : p2.collide level p2.hitbox.x p2.hitbox.y = false := by
          rw [collide_congr p p2 level _ _ (by rw [hhit]) (by rw [hhit]), hhit]
          simpa using hcol
        obtain ⟨h1, h2, h3⟩ := ih (amt - inc) p2 hfalse
        exact ⟨h1, by rw [h2, hhit], by rw [h3, hhit]⟩
    · rw [if_neg hin]
      exact ⟨hp, rfl, rfl⟩

/-- The full swept X phase preserves non-collision. -/
theorem pmove_swept_pres (p : Player) (level : Level) (oph obh : Hitbox)
    (move_x : Int)
    (hp : p.collide level p.hitbox.x p.hitbox.y = false) :
    ((p.move_x_swept level oph obh move_x).1.collide level
        (p.move_x_swept level oph obh move_x).1.hitbox.x
        (p.move_x_swept level oph obh move_x).1.hitbox.y = false) ∧
    (p.move_x_swept level oph obh move_x).1.hitbox.width = p.hitbox.width ∧
    (p.move_x_swept level oph obh move_x).1.hitbox.height = p.hitbox.height := by
  unfold Player.move_x_swept
  dsimp only
  obtain ⟨h1, h2, h3⟩ := psweep_x_pres level oph obh _ 1000 move_x.natAbs move_x.natAbs p hp
  obtain ⟨h4, h5, h6⟩ := psweep_x_pres level oph obh _ 100 _ _ _ h1
  obtain ⟨h7, h8, h9⟩ := psweep_x_pres level oph obh _ 10 _ _ _ h4
  obtain ⟨h10, h11, h12⟩ := psweep_x_pres level oph obh _ 1 _ _ _ h7
  exact ⟨h10, by rw [h11, h8, h5, h2], by rw [h12, h9, h6, h3]⟩

/-- The full swept Y phase preserves non-collision. -/
theorem pmove_swept_y_pres (p : Player) (level : Level) (oph obh : Hitbox)
    (move_y : Int)
    (hp : p.collide level p.hitbox.x p.hitbox.y = false) :
    ((p.move_y_swept level oph obh move_y).1.collide level
        (p.move_y_swept level oph obh move_y).1.hitbox.x
        (p.move_y_swept level oph obh move_y).1.hitbox.y = false) ∧
    (p.move_y_swept level oph obh move_y).1.hitbox.width = p.hitbox.width ∧
    (p.move_y_swept level oph obh move_y).1.hitbox.height = p.hitbox.height := by
  unfold Player.move_y_swept
  dsimp only
  obtain ⟨h1, h2, h3⟩ := psweep_y_pres level oph obh _ 1000 move_y.natAbs move_y.natAbs p hp
  obtain ⟨h4, h5, h6⟩ := psweep_y_pres level oph obh _ 100 _ _ _ h1
  obtain ⟨h7, h8, h9⟩ := psweep_y_pres level oph obh _ 10 _ _ _ h4
  obtain ⟨h10, h11, h12⟩ := psweep_y_pres level oph obh _ 1 _ _ _ h7
  exact ⟨h10, by rw [h11, h8, h5, h2], by rw [h12, h9, h6, h3]⟩

/-- `Player::move_by` with sweeping enabled preserves non-collision of the
current position. -/
theorem pmove_by_pres (p : Player) (level : Level) (move_x move_y : Int)
    (is_on_ground is_on_left_wall is_on_right_wall : Bool) (oph obh : Hitbox)
    (hp : p.collide level p.hitbox.x p.hitbox.y = false) :
    ((p.move_by level move_x move_y true is_on_ground is_on_left_wall
        is_on_right_wall oph obh).collide level
      (p.move_by level move_x move_y true is_on_ground is_on_left_wall
        is_on_right_wall oph obh).hitbox.x
      (p.move_by level move_x move_y true is_on_ground is_on_left_wall
        is_on_right_wall oph obh).hitbox.y = false) ∧
    (p.move_by level move_x move_y true is_on_ground is_on_left_wall
        is_on_right_wall oph obh).hitbox.width = p.hitbox.width ∧
    (p.move_by level move_x move_y true is_on_ground is_on_left_wall
        is_on_right_wall oph obh).hitbox.height = p.hitbox.height := by
  unfold Player.move_by
  simp only [Bool.true_or, if_true]
  obtain ⟨h1, h2, h3⟩ := pmove_swept_pres p level oph obh move_x hp
  set q1 := (p.move_x_swept level oph obh move_x).1 with hq1
  set q2 := if (p.move_x_swept level oph obh move_x).2 = true then
      q1.move_collide_x is_on_ground is_on_left_wall is_on_right_wall else q1 with hq2
  have hq2hit : q2.hitbox = q1.hitbox := by
    rw [hq2]; split
    · exact pmcx_hitbox q1 _ _ _
    · rfl
  have hq2col : q2.collide level q2.hitbox.x q2.hitbox.y = false := by
    rw [collide_congr q1 q2 level _ _ (by rw [hq2hit]) (by rw [hq2hit]), hq2hit]
    exact h1
  obtain ⟨h4, h5, h6⟩ := pmove_swept_y_pres q2 level oph obh move_y hq2col
  set q3 := (q2.move_y_swept level oph obh move_y).1 with hq3
  set q4 := if (q2.move_y_swept level oph obh move_y).2 = true then
      q3.move_collide_y else q3 with hq4
  have hq4hit : q4.hitbox = q3.hitbox := by
    rw [hq4]; split
    · exact pmcy_hitbox q3
    · rfl
  have hq4col : q4.collide level q4.hitbox.x q4.hitbox.y = false := by
    rw [collide_congr q3 q4 level _ _ (by rw [hq4hit]) (by rw [hq4hit]), hq4hit]
    exact h4
  have hfin : (q4.check_entity_collisions oph obh).hitbox = q4.hitbox :=
    pcheck_hitbox q4 oph obh
  refine ⟨?_, ?_, ?_⟩
  · rw [collide_congr q4 (q4.check_entity_collisions oph obh) level _ _
      (by rw [hfin]) (by rw [hfin]), hfin]
    exact hq4col
  · rw [hfin, hq4hit, h5, hq2hit, h2]
  · rw [hfin, hq4hit, h6, hq2hit, h3]

/-- C2: starting from a non-colliding hitbox, the swept `Player::move_by`
(X resolved before Y, steps of 1000/100/10/1 committed only when the stepped
position is collision-free) ends at a position where `collide` is `false`,
and hence the resulting hitbox does not properly overlap (tunnel into) any
occupied tile.  The one-frame displacement caps of the claim are recorded as
hypotheses; the result holds for every displacement. -/
theorem c2_no_tunneling (p : Player) (level : Level) (move_x move_y : Int)
    (is_on_ground is_on_left_wall is_on_right_wall : Bool)
    (other_player_hitbox other_boomerang_hitbox : Hitbox)
    (hw : 0 ≤ p.hitbox.width) (hh : 0 ≤ p.hitbox.height)
    (_hcx : move_x.natAbs ≤ (MAX_SUPERJUMP_SPEED_X.tdiv OG_FPS).toNat)
    (_hcy : move_y.natAbs ≤ (MAX_FASTFALL_SPEED.tdiv OG_FPS).toNat)
    (hstart : p.collide level p.hitbox.x p.hitbox.y = false) :
    ((p.move_by level move_x move_y true is_on_ground is_on_left_wall
        is_on_right_wall other_player_hitbox other_boomerang_hitbox).collide level
      (p.move_by level move_x move_y true is_on_ground is_on_left_wall
        is_on_right_wall other_player_hitbox other_boomerang_hitbox).hitbox.x
      (p.move_by level move_x move_y true is_on_ground is_on_left_wall
        is_on_right_wall other_player_hitbox other_boomerang_hitbox).hitbox.y = false) ∧
    ∀ i j : Int, level.check_grid i j = true →
      ¬ strictly_overlaps
        (p.move_by level move_x move_y true is_on_ground is_on_left_wall
          is_on_right_wall other_player_hitbox other_boomerang_hitbox).hitbox
        (tile_hitbox i j) := by
  obtain ⟨h1, h2, h3⟩ := pmove_by_pres p level move_x move_y is_on_ground
    is_on_left_wall is_on_right_wall other_player_hitbox other_boomerang_hitbox hstart
  refine ⟨h1, ?_⟩
  intro i j hg hov
  set q := p.move_by level move_x move_y true is_on_ground is_on_left_wall
    is_on_right_wall other_player_hitbox other_boomerang_hitbox with hq
  have heta : (⟨q.hitbox.x, q.hitbox.y, q.hitbox.width, q.hitbox.height⟩ : Hitbox) =
      q.hitbox := rfl
  have := collide_of_strict_overlap q level q.hitbox.x q.hitbox.y
    (by rw [h2]; exact hw) (by rw [h3]; exact hh) i j hg (by rw [heta]; exact hov)
  rw [h1] at this
  exact Bool.false_ne_true this

/-- C2 witness: the demo player moving down-right within the speed caps on
the demo level ends collision-free. -/
theorem c2_no_tunneling_witness :
    ((Player.new 4000 (-1) false).move_by demo_level 3000 8000 true false false false
        far_hitbox far_hitbox).collide demo_level
      ((Player.new 4000 (-1) false).move_by demo_level 3000 8000 true false false false
        far_hitbox far_hitbox).hitbox.x
      ((Player.new 4000 (-1) false).move_by demo_level 3000 8000 true false false false
        far_hitbox far_hitbox).hitbox.y = false :=
  (c2_no_tunneling (Player.new 4000 (-1) false) demo_level 3000 8000 false false false
    far_hitbox far_hitbox (by decide) (by decide) (by decide) (by decide) (by decide)).1

/-! ## C3 — combat resolution: `will_die` marking and the kill step -/

theorem getp_setp_same (s : State) (i : Bool) (p : Player) : getp (setp s i p) i = p := by
  rcases i <;> rfl

theorem getp_setp_other (s : State) (i j : Bool) (p : Player) (h : j ≠ i) :
    getp (setp s i p) j = getp s j := by
  rcases i <;> rcases j <;> simp_all <;> rfl

theorem getb_setp (s : State) (i j : Bool) (p : Player) : getb (setp s i p) j = getb s j := by
  rcases i <;> rcases j <;> rfl

theorem getp_setb (s : State) (i j : Bool) (b : Boomerang) : getp (setb s i b) j = getp s j := by
  rcases i <;> rcases j <;> rfl

theorem getb_setb_same (s : State) (i : Bool) (b : Boomerang) : getb (setb s i b) i = b := by
  rcases i <;> rfl

theorem getb_setb_other (s : State) (i j : Bool) (b : Boomerang) (h : j ≠ i) :
    getb (setb s i b) j = getb s j := by
  rcases i <;> rcases j <;> simp_all <;> rfl

theorem setp_frame (s : State) (i : Bool) (p : Player) : (setp s i p).frame = s.frame := by
  rcases i <;> rfl

theorem setb_frame (s : State) (i : Bool) (b : Boomerang) : (setb s i b).frame = s.frame := by
  rcases i <;> rfl

theorem setp_round_end (s : State) (i : Bool) (p : Player) :
    (setp s i p).round_end_frame = s.round_end_frame := by
  rcases i <;> rfl

theorem setb_round_end (s : State) (i : Bool) (b : Boomerang) :
    (setb s i b).round_end_frame = s.round_end_frame := by
  rcases i <;> rfl

theorem getp_set_round_end (s : State) (j : Bool) (n : Int) :
    getp { s with round_end_frame := n } j = getp s j := by
  rcases j <;> rfl

theorem getb_set_round_end (s : State) (j : Bool) (n : Int) :
    getb { s with round_end_frame := n } j = getb s j := by
  rcases j <;> rfl

theorem update_particle_getp (s : State) (idx : Nat) (f : Particle → Particle) (j : Bool) :
    getp (s.update_particle idx f) j = getp s j := by
  rcases j <;> rfl

theorem update_particle_getb (s : State) (idx : Nat) (f : Particle → Particle) (j : Bool) :
    getb (s.update_particle idx f) j = getb s j := by
  rcases j <;> rfl

/-- the explosion fold touches only the particle pool -/
theorem explosion_fold_proj (l : List IntVector2D) (i : Bool) :
    ∀ s : State,
    (∀ j, getp (l.foldl (fun s angle =>
        if decide (angle.x = 0) && decide (angle.y = 0) then s
        else
          let particle_num := s.get_free_particle_index
          let s := s.update_particle particle_num
            (fun pt => { pt with position :=
              { x := (getp s i).center_x, y := (getp s i).center_y } })
          let s := s.update_particle particle_num (fun pt => pt.set_animation "simple")
          s.update_particle particle_num
            (fun pt => { pt with velocity := { x := angle.x, y := angle.y } })) s) j =
      getp s j) ∧
    (∀ j, getb (l.foldl (fun s angle =>
        if decide (angle.x = 0) && decide (angle.y = 0) then s
        else
          let particle_num := s.get_free_particle_index
          let s := s.update_particle particle_num
            (fun pt => { pt with position :=
              { x := (getp s i).center_x, y := (getp s i).center_y } })
          let s := s.update_particle particle_num (fun pt => pt.set_animation "simple")
          s.update_particle particle_num
            (fun pt => { pt with velocity := { x := angle.x, y := angle.y } })) s) j =
      getb s j) ∧
    (l.foldl (fun s angle =>
        if decide (angle.x = 0) && decide (angle.y = 0) then s
        else
          let particle_num := s.get_free_particle_index
          let s := s.update_particle particle_num
            (fun pt => { pt with position :=
              { x := (getp s i).center_x, y := (getp s i).center_y } })
          let s := s.update_particle particle_num (fun pt => pt.set_animation "simple")
          s.update_particle particle_num
            (fun pt => { pt with velocity := { x := angle.x, y := angle.y } })) s).round_end_frame =
      s.round_end_frame ∧
    (l.foldl (fun s angle =>
        if decide (angle.x = 0) && decide (angle.y = 0) then s
        else
          let particle_num := s.get_free_particle_index
          let s := s.update_particle particle_num
            (fun pt => { pt with position :=
              { x := (getp s i).center_x, y := (getp s i).center_y } })
          let s := s.update_particle particle_num (fun pt => pt.set_animation "simple")
          s.update_particle particle_num
            (fun pt => { pt with velocity := { x := angle.x, y := angle.y } })) s).frame =
      s.frame := by
  induction l with
  | nil => intro s; exact ⟨fun j => rfl, fun j => rfl, rfl, rfl⟩
  | cons a l ih =>
    intro s
    rw [List.foldl_cons]
    by_cases ha : (decide (a.x = 0) && decide (a.y = 0)) = true
    · simp only [ha, if_true]
      exact ih s
    · simp only [Bool.not_eq_true] at ha
      simp only [ha, if_false]
      refine ⟨fun j => ?_, fun j => ?_, ?_, ?_⟩
      · rw [(ih _).1 j]
        simp [update_particle_getp]
      · rw [(ih _).2.1 j]
        simp [update_particle_getb]
      · rw [(ih _).2.2.1]
        rfl
      · rw [(ih _).2.2.2]
        rfl

theorem prop_proj (t : State) (j k : Bool) :
    ((getp (t.propagate_boomerang_hit j) k).will_die = (getp t k).will_die ∧
     (getp (t.propagate_boomerang_hit j) k).is_dead = (getp t k).is_dead ∧
     (getp (t.propagate_boomerang_hit j) k).dodge_timer = (getp t k).dodge_timer ∧
     (getp (t.propagate_boomerang_hit j) k).collided_with_player =
       (getp t k).collided_with_player ∧
     getb (t.propagate_boomerang_hit j) k = getb t k ∧
     (t.propagate_boomerang_hit j).round_end_frame = t.round_end_frame ∧
     (t.propagate_boomerang_hit j).frame = t.frame) ∧
    (getp (t.propagate_boomerang_hit j) k).collided_with_boomerang =
      ((getp t k).collided_with_boomerang ||
        (decide (k = !j) && !(getp t j).is_dead && (getb t j).collided_with_player)) := by
  unfold State.propagate_boomerang_hit
  rcases j <;> rcases k <;>
    (by_cases h1 : (getp t false).is_dead = true <;>
     by_cases h2 : (getp t true).is_dead = true <;>
     by_cases h3 : (getb t false).collided_with_player = true <;>
     by_cases h4 : (getb t true).collided_with_player = true <;>
     simp_all [getp, getb, setp, setb])

theorem mark_proj (t : State) (j k : Bool) :
    ((getp (t.mark_will_die j) k).is_dead = (getp t k).is_dead ∧
     (getp (t.mark_will_die j) k).dodge_timer = (getp t k).dodge_timer ∧
     (getp (t.mark_will_die j) k).collided_with_player =
       (getp t k).collided_with_player ∧
     (getp (t.mark_will_die j) k).collided_with_boomerang =
       (getp t k).collided_with_boomerang ∧
     getb (t.mark_will_die j) k = getb t k ∧
     (t.mark_will_die j).round_end_frame = t.round_end_frame ∧
     (t.mark_will_die j).frame = t.frame) ∧
    (getp (t.mark_will_die j) k).will_die =
      ((getp t k).will_die ||
        (decide (k = j) && !(getp t j).is_dead &&
          ((getp t j).collided_with_player && decide ((getp t j).dodge_timer = 0) &&
              decide ((getp t (!j)).dodge_timer > 0) ||
            (getp t j).collided_with_boomerang && decide ((getp t j).dodge_timer = 0) &&
              !(getb t (!j)).is_holstered))) := by
  unfold State.mark_will_die
  by_cases hd : (getp t j).is_dead = true
  · rw [if_pos hd]
    simp [hd]
  · rw [if_neg hd]
    simp only [Bool.not_eq_true] at hd
    by_cases h1 : ((getp t j).collided_with_player &&
        decide ((getp t j).dodge_timer = 0) &&
        decide ((getp t (!j)).dodge_timer > 0)) = true
    · rw [if_pos h1]
      simp only [getp_setp_same, getb_setp]
      by_cases h2 : (({ getp t j with will_die := true } : Player).collided_with_boomerang &&
          decide (({ getp t j with will_die := true } : Player).dodge_timer = 0) &&
          !(getb t (!j)).is_holstered) = true
      · rw [if_pos h2]
        rcases k <;> rcases j <;>
          simp_all [getp, setp, getb, setb, -Bool.exists_bool]
      · rw [if_neg h2]
        rcases k <;> rcases j <;>
          simp_all [getp, setp, getb, setb, -Bool.exists_bool]
    · rw [if_neg h1]
      by_cases h2 : ((getp t j).collided_with_boomerang &&
          decide ((getp t j).dodge_timer = 0) &&
          !(getb t (!j)).is_holstered) = true
      · rw [if_pos h2]
        rcases k <;> rcases j <;>
          simp_all [getp, setp, getb, setb, -Bool.exists_bool]
      · rw [if_neg h2]
        rcases k <;> rcases j <;>
          simp_all [getp, setp, getb, setb, -Bool.exists_bool]

theorem kill_player_effect (s : State) (j : Bool) :
    (getp (s.kill_player j) j).is_dead = ((getp s j).is_dead || (getp s j).will_die) ∧
    ((getp s j).is_dead = false → (getp s j).will_die = true →
      (getb (s.kill_player j) j).is_holstered = true ∧
      (s.kill_player j).round_end_frame = s.frame) ∧
    ((getp s j).is_dead = true ∨ (getp s j).will_die = false →
      (getb (s.kill_player j) j) = getb s j ∧
      (s.kill_player j).round_end_frame = s.round_end_frame) ∧
    getp (s.kill_player j) (!j) = getp s (!j) ∧
    getb (s.kill_player j) (!j) = getb s (!j) ∧
    (s.kill_player j).frame = s.frame := by
  unfold State.kill_player
  by_cases hd : (getp s j).is_dead = true
  · rw [if_pos hd]
    simp [hd]
  · rw [if_neg hd]
    simp only [Bool.not_eq_true] at hd
    by_cases hw : (getp s j).will_die = true
    · rw [if_pos hw]
      have hfold := explosion_fold_proj explosion_angles j
        (setp { setb (setp s j { getp s j with will_die := false, is_dead := true })
            j { getb (setp s j { getp s j with will_die := false, is_dead := true }) j
                  with is_holstered := true } with
            round_end_frame :=
              (setb (setp s j { getp s j with will_die := false, is_dead := true })
                j { getb (setp s j { getp s j with will_die := false, is_dead := true }) j
                      with is_holstered := true }).frame } j
          ((getp { setb (setp s j { getp s j with will_die := false, is_dead := true })
              j { getb (setp s j { getp s j with will_die := false, is_dead := true }) j
                    with is_holstered := true } with
              round_end_frame :=
                (setb (setp s j { getp s j with will_die := false, is_dead := true })
                  j { getb (setp s j { getp s j with will_die := false, is_dead := true }) j
                        with is_holstered := true }).frame } j).add_sound_command
            "death" "play" 100))
      obtain ⟨hf1, hf2, hf3, hf4⟩ := hfold
      refine ⟨?_, fun _ _ => ⟨?_, ?_⟩, fun h => ?_, ?_, ?_, ?_⟩
      · rw [hf1 j]
        simp [getp_setp_same, getb_setp, getp_setb, getp_set_round_end, hw,
          Player.add_sound_command]
      · rw [hf2 j]
        simp [getb_setp, getb_setb_same, getb_set_round_end]
      · rw [hf3]
        simp [setb_frame, setp_frame, setb_round_end, setp_round_end]
      · rcases h with h | h
        · exact absurd h (by simp [hd])
        · exact absurd hw (by simp [h])
      · rw [hf1 (!j)]
        simp [getp_setp_other, getp_setb, getp_set_round_end, Bool.not_ne_self]
      · rw [hf2 (!j)]
        simp [getb_setp, getb_setb_other, getb_set_round_end, Bool.not_ne_self]
      · rw [hf4]
        simp [setp_frame, setb_frame]
    · rw [if_neg hw]
      simp only [Bool.not_eq_true] at hw
      simp [hd, hw]

theorem kill_spec (s : State) (i : Bool)
    (halive : (getp s i).is_dead = false) (hwd : (getp s i).will_die = true) :
    (getp s.kill_players i).is_dead = true ∧
    (getb s.kill_players i).is_holstered = true ∧
    s.kill_players.round_end_frame = s.frame := by
  unfold State.kill_players
  rcases i
  · obtain ⟨k1, k2, -, -, -, k6⟩ := kill_player_effect s false
    obtain ⟨k2a, k2b⟩ := k2 halive hwd
    obtain ⟨m1, m2, m3, m4, m5, m6⟩ := kill_player_effect (s.kill_player false) true
    have m4' : getp ((s.kill_player false).kill_player true) false =
        getp (s.kill_player false) false := m4
    have m5' : getb ((s.kill_player false).kill_player true) false =
        getb (s.kill_player false) false := m5
    refine ⟨?_, ?_, ?_⟩
    · rw [m4', k1, halive, hwd]
      rfl
    · rw [m5', k2a]
    · by_cases hda : (getp (s.kill_player false) true).is_dead = false ∧
        (getp (s.kill_player false) true).will_die = true
      · rw [(m2 hda.1 hda.2).2, k6]
      · have : (getp (s.kill_player false) true).is_dead = true ∨
            (getp (s.kill_player false) true).will_die = false := by
          rcases Bool.eq_false_or_eq_true (getp (s.kill_player false) true).is_dead with h | h
          · exact Or.inl h
          · rcases Bool.eq_false_or_eq_true (getp (s.kill_player false) true).will_die with h' | h'
            · exact absurd ⟨h, h'⟩ hda
            · exact Or.inr h'
        rw [(m3 this).2, k2b]
  · obtain ⟨-, -, -, k4, -, k6⟩ := kill_player_effect s false
    have k4' : getp (s.kill_player false) true = getp s true := k4
    obtain ⟨m1, m2, -, -, -, -⟩ := kill_player_effect (s.kill_player false) true
    obtain ⟨m2a, m2b⟩ := m2 (by rw [k4']; exact halive) (by rw [k4']; exact hwd)
    refine ⟨?_, m2a, ?_⟩
    · rw [m1, k4', halive, hwd]
      rfl
    · rw [m2b, k6]

theorem getp_set_prev (s : State) (inp : Nat × Nat) (j : Bool) :
    getp { s with prev_inputs := inp } j = getp s j := by
  rcases j <;> rfl

theorem getb_set_prev (s : State) (inp : Nat × Nat) (j : Bool) :
    getb { s with prev_inputs := inp } j = getb s j := by
  rcases j <;> rfl

theorem round_end_set_prev (s : State) (inp : Nat × Nat) :
    ({ s with prev_inputs := inp } : State).round_end_frame = s.round_end_frame := rfl

theorem set_particles_frame (s : State) (ps : List Particle) :
    ({ s with particles := ps } : State).frame = s.frame := rfl

theorem spawn_fold_frame (l : List (IntVector2D × String)) :
    ∀ s : State,
      (l.foldl (fun s spawn =>
        let particle_num := s.get_free_particle_index
        let s := s.update_particle particle_num
          (fun pt => { pt with position := { x := spawn.1.x, y := spawn.1.y } })
        s.update_particle particle_num (fun pt => pt.set_animation spawn.2)) s).frame =
        s.frame := by
  induction l with
  | nil => intro s; rfl
  | cons a l ih =>
    intro s
    rw [List.foldl_cons, ih]
    rfl

theorem player_step_frame (s : State) (inputs : Nat × Nat) (level : Level) (i : Bool) :
    (s.player_step inputs level i).frame = s.frame := by
  unfold State.player_step
  split <;> rcases i <;> rfl

theorem boomerang_step_frame (s : State) (inputs : Nat × Nat) (i : Bool) :
    (s.boomerang_step inputs i).frame = s.frame := by
  unfold State.boomerang_step
  split <;> rcases i <;> rfl

theorem spawn_queued_frame (s : State) (i : Bool) :
    (s.spawn_queued_particles_for i).frame = s.frame := by
  simp only [State.spawn_queued_particles_for]
  rw [setp_frame]
  exact spawn_fold_frame _ s

theorem pre_combat_frame (s : State) (inputs : Nat × Nat) (level : Level) :
    (s.pre_combat inputs level).frame = s.frame + 1 := by
  simp only [State.pre_combat]
  rw [set_particles_frame, spawn_queued_frame, spawn_queued_frame, boomerang_step_frame,
    boomerang_step_frame, player_step_frame, player_step_frame]

theorem prop2_pres (t : State) (k : Bool) :
    (getp ((t.propagate_boomerang_hit false).propagate_boomerang_hit true) k).will_die =
      (getp t k).will_die ∧
    (getp ((t.propagate_boomerang_hit false).propagate_boomerang_hit true) k).is_dead =
      (getp t k).is_dead ∧
    (getp ((t.propagate_boomerang_hit false).propagate_boomerang_hit true) k).dodge_timer =
      (getp t k).dodge_timer ∧
    (getp ((t.propagate_boomerang_hit false).propagate_boomerang_hit true) k).collided_with_player =
      (getp t k).collided_with_player ∧
    getb ((t.propagate_boomerang_hit false).propagate_boomerang_hit true) k = getb t k ∧
    ((t.propagate_boomerang_hit false).propagate_boomerang_hit true).frame = t.frame := by
  obtain ⟨⟨a1, a2, a3, a4, a5, -, a7⟩, -⟩ := prop_proj t false k
  obtain ⟨⟨b1, b2, b3, b4, b5, -, b7⟩, -⟩ := prop_proj (t.propagate_boomerang_hit false) true k
  exact ⟨by rw [b1, a1], by rw [b2, a2], by rw [b3, a3], by rw [b4, a4], by rw [b5, a5],
    by rw [b7, a7]⟩

theorem prop2_cwb (t : State) (k : Bool) :
    (getp ((t.propagate_boomerang_hit false).propagate_boomerang_hit true)
        k).collided_with_boomerang =
      ((getp t k).collided_with_boomerang ||
        (!(getp t (!k)).is_dead && (getb t (!k)).collided_with_player)) := by
  obtain ⟨-, a8⟩ := prop_proj t false k
  obtain ⟨-, b8⟩ := prop_proj (t.propagate_boomerang_hit false) true k
  obtain ⟨⟨-, c2, -, -, c5, -, -⟩, -⟩ := prop_proj t false true
  rw [b8, a8, c2, c5]
  rcases k <;> simp

theorem marks_pres (t2 : State) (k : Bool) :
    (getp ((t2.mark_will_die false).mark_will_die true) k).is_dead = (getp t2 k).is_dead ∧
    (getp ((t2.mark_will_die false).mark_will_die true) k).dodge_timer =
      (getp t2 k).dodge_timer ∧
    (getp ((t2.mark_will_die false).mark_will_die true) k).collided_with_player =
      (getp t2 k).collided_with_player ∧
    (getp ((t2.mark_will_die false).mark_will_die true) k).collided_with_boomerang =
      (getp t2 k).collided_with_boomerang ∧
    getb ((t2.mark_will_die false).mark_will_die true) k = getb t2 k ∧
    ((t2.mark_will_die false).mark_will_die true).frame = t2.frame := by
  obtain ⟨⟨c1, c2, c3, c4, c5, -, c7⟩, -⟩ := mark_proj t2 false k
  obtain ⟨⟨d1, d2, d3, d4, d5, -, d7⟩, -⟩ := mark_proj (t2.mark_will_die false) true k
  exact ⟨by rw [d1, c1], by rw [d2, c2], by rw [d3, c3], by rw [d4, c4], by rw [d5, c5],
    by rw [d7, c7]⟩

theorem marks_wd (t2 : State) (k : Bool) :
    (getp ((t2.mark_will_die false).mark_will_die true) k).will_die =
      ((getp t2 k).will_die ||
        (!(getp t2 k).is_dead &&
          ((getp t2 k).collided_with_player && decide ((getp t2 k).dodge_timer = 0) &&
              decide ((getp t2 (!k)).dodge_timer > 0) ||
            (getp t2 k).collided_with_boomerang && decide ((getp t2 k).dodge_timer = 0) &&
              !(getb t2 (!k)).is_holstered))) := by
  obtain ⟨-, c8⟩ := mark_proj t2 false k
  obtain ⟨-, d8⟩ := mark_proj (t2.mark_will_die false) true k
  obtain ⟨⟨e1, e2, e3, e4, -, -, -⟩, -⟩ := mark_proj t2 false true
  obtain ⟨⟨-, f2, -, -, f5, -, -⟩, -⟩ := mark_proj t2 false false
  simp only [Bool.not_true, Bool.not_false] at d8 c8
  rw [d8, c8, e1, e2, e3, e4, f2, f5]
  rcases k <;> simp

theorem combat_pres (t : State) (k : Bool) :
    (getp t.combat_interactions k).is_dead = (getp t k).is_dead ∧
    (getp t.combat_interactions k).dodge_timer = (getp t k).dodge_timer ∧
    (getp t.combat_interactions k).collided_with_player = (getp t k).collided_with_player ∧
    getb t.combat_interactions k = getb t k ∧
    (getp t.combat_interactions k).collided_with_boomerang =
      ((getp t k).collided_with_boomerang ||
        (!(getp t (!k)).is_dead && (getb t (!k)).collided_with_player)) ∧
    t.combat_interactions.frame = t.frame := by
  have e : t.combat_interactions =
      (((t.propagate_boomerang_hit false).propagate_boomerang_hit
        true).mark_will_die false).mark_will_die true := rfl
  obtain ⟨p1, p2, p3, p4, p5, p6⟩ := prop2_pres t k
  have pc := prop2_cwb t k
  obtain ⟨m1, m2, m3, m4, m5, m6⟩ :=
    marks_pres ((t.propagate_boomerang_hit false).propagate_boomerang_hit true) k
  rw [e]
  exact ⟨by rw [m1, p2], by rw [m2, p3], by rw [m3, p4], by rw [m5, p5], by rw [m4, pc],
    by rw [m6, p6]⟩

theorem combat_wd (t : State) (k : Bool) :
    (getp t.combat_interactions k).will_die =
      ((getp t k).will_die ||
        (!(getp t k).is_dead &&
          ((getp t k).collided_with_player && decide ((getp t k).dodge_timer = 0) &&
              decide ((getp t (!k)).dodge_timer > 0) ||
            ((getp t k).collided_with_boomerang ||
                (!(getp t (!k)).is_dead && (getb t (!k)).collided_with_player)) &&
              decide ((getp t k).dodge_timer = 0) && !(getb t (!k)).is_holstered))) := by
  have e : t.combat_interactions =
      (((t.propagate_boomerang_hit false).propagate_boomerang_hit
        true).mark_will_die false).mark_will_die true := rfl
  rw [e, marks_wd]
  obtain ⟨p1, p2, p3, p4, p5, -⟩ := prop2_pres t k
  obtain ⟨-, q2, q3, -, q5, -⟩ := prop2_pres t (!k)
  have pc := prop2_cwb t k
  rw [p1, p2, p3, p4, q3, q5, pc]

set_option maxHeartbeats 1000000 in
/-- **C3.** In every `State::advance`, for a player alive and unflagged at the
start of the combat-interaction section: after `combat_interactions` the
`will_die` flag is set exactly when (body-to-body collision is flagged while
the player's dodge timer is zero and the opponent's dodge timer is positive)
or (`collided_with_boomerang` is set while the player's dodge timer is zero
and the opponent's boomerang is not holstered); and a living player flagged
`will_die` becomes dead in the same `advance`, its own boomerang is
force-holstered, and `round_end_frame` is stamped with the current
(post-increment) frame.  The final conjunct pins `advance` to the
pre-combat/combat/kill pipeline these lemmas describe. -/
theorem c3_combat_resolution (s : State) (inputs : Nat × Nat) (level : Level) (i : Bool)
    (t u : State) (ht : t = s.pre_combat inputs level) (hu : u = t.combat_interactions)
    (halive : (getp t i).is_dead = false) (hwd0 : (getp t i).will_die = false) :
    ((getp u i).will_die = true ↔
      ((getp u i).collided_with_player = true ∧ (getp u i).dodge_timer = 0 ∧
        0 < (getp u (!i)).dodge_timer) ∨
      ((getp u i).collided_with_boomerang = true ∧ (getp u i).dodge_timer = 0 ∧
        (getb u (!i)).is_holstered = false)) ∧
    ((getp u i).will_die = true →
      (getp (s.advance inputs level) i).is_dead = true ∧
      (getb (s.advance inputs level) i).is_holstered = true ∧
      (s.advance inputs level).round_end_frame = s.frame + 1) ∧
    s.advance inputs level = { u.kill_players with prev_inputs := inputs } := by
  subst ht
  subst hu
  obtain ⟨e1, e2, e3, e4, e5, e6⟩ := combat_pres (s.pre_combat inputs level) i
  obtain ⟨f1, f2, f3, f4, f5, f6⟩ := combat_pres (s.pre_combat inputs level) (!i)
  have hwd := combat_wd (s.pre_combat inputs level) i
  refine ⟨?_, ?_, rfl⟩
  · rw [hwd, e2, e3, e5, f2, f4, halive, hwd0]
    simp only [Bool.false_or, Bool.not_false, Bool.true_and, Bool.or_eq_true,
      Bool.and_eq_true, decide_eq_true_iff, Bool.not_eq_true', gt_iff_lt, and_assoc]
  · intro hw
    have hdu : (getp ((s.pre_combat inputs level).combat_interactions) i).is_dead = false := by
      rw [e1, halive]
    obtain ⟨k1, k2, k3⟩ :=
      kill_spec ((s.pre_combat inputs level).combat_interactions) i hdu hw
    have hadv : s.advance inputs level =
        { ((s.pre_combat inputs level).combat_interactions).kill_players with
            prev_inputs := inputs } := rfl
    refine ⟨?_, ?_, ?_⟩
    · rw [hadv, getp_set_prev, k1]
    · rw [hadv, getb_set_prev, k2]
    · rw [hadv, round_end_set_prev, k3, e6, pre_combat_frame]

def c3_s : State where
  frame := 0
  prev_inputs := (0, 0)
  players := (Player.new 4000 0 false, Player.new 40000 0 true)
  boomerangs := (Boomerang.new, Boomerang.new)
  round_start_frame := 0
  round_end_frame := -1
  particles := []
  curtain := Curtain.new

def c3_t : State := c3_s.pre_combat (0, 0) empty_level

def c3_u : State := c3_t.combat_interactions

set_option maxRecDepth 40000 in
/-- C3 witness: two far-apart idle players on the empty level; both
hypotheses evaluate, and the theorem is applied at player one. -/
theorem c3_combat_resolution_witness :
    (getp c3_t false).is_dead = false ∧ (getp c3_t false).will_die = false ∧
    (((getp c3_u false).will_die = true ↔
        ((getp c3_u false).collided_with_player = true ∧
          (getp c3_u false).dodge_timer = 0 ∧
          0 < (getp c3_u (!false)).dodge_timer) ∨
        ((getp c3_u false).collided_with_boomerang = true ∧
          (getp c3_u false).dodge_timer = 0 ∧
          (getb c3_u (!false)).is_holstered = false)) ∧
      ((getp c3_u false).will_die = true →
        (getp (c3_s.advance (0, 0) empty_level) false).is_dead = true ∧
        (getb (c3_s.advance (0, 0) empty_level) false).is_holstered = true ∧
        (c3_s.advance (0, 0) empty_level).round_end_frame = c3_s.frame + 1) ∧
      c3_s.advance (0, 0) empty_level = { c3_u.kill_players with prev_inputs := (0, 0) }) :=
  ⟨by decide, by decide,
    c3_combat_resolution c3_s (0, 0) empty_level false c3_t c3_u rfl rfl (by decide)
      (by decide)⟩
